import Mathlib

/-!
# Telegram alert notifier

A shallow embedding of `pkg/services/alerting/notifiers/telegram.go`.

* Go strings are byte sequences (`GoString`); `len` is the byte count and
  `s[0:n]` keeps the first `n` bytes. String literals stand for their UTF-8
  bytes (`str`), and `fmt.Sprintf` with `%s` verbs is concatenation.
* What the notifier reads from outside itself is gathered in `Env`: the
  outcome of `os.Open` per path, the boundary drawn by
  `multipart.NewWriter`, and the answer of `bus.DispatchCtx`.
* Calls that act on the outside world (`os.Open`, `bus.DispatchCtx`) are
  recorded, in order, in a list of `Event`s returned next to the result.
* Logger calls return nothing and change no value; they are left out.
-/

set_option autoImplicit false

namespace Telegram

/-! ## Go strings -/

/-- A Go string: an immutable sequence of bytes. -/
abbrev GoString := List UInt8

/-- The bytes of a Go string literal: the UTF-8 encoding of its text. -/
def str (s : String) : GoString :=
  s.data.flatMap String.utf8EncodeChar

/-- A Go `error` value. -/
structure GoError where
  msg : String
deriving DecidableEq, Repr

/-! ## Data model -/

/-- The constant `captionLengthLimit`. -/
def captionLengthLimit : Nat := 200

/-- The format `telegramApiUrl`, `"https://api.telegram.org/bot%s/%s"`,
applied to its two string arguments. -/
def telegramApiUrl (botToken apiMethod : GoString) : GoString :=
  str "https://api.telegram.org/bot" ++ botToken ++ str "/" ++ apiMethod

/-- One entry of `EvalContext.EvalMatches`. `Metric` and `Value` are the
texts that the `%s` verbs of the enumeration loops print for them. -/
structure EvalMatch where
  Metric : GoString
  Value : GoString
deriving DecidableEq, Repr

/-- The fields of `alerting.Rule` that the notifier reads, and the rule's
current state (printed as text), which it could read. -/
structure Rule where
  Name : GoString
  Message : GoString
  State : GoString
deriving DecidableEq, Repr

/-- The part of `alerting.EvalContext` that the notifier reads.
`GetNotificationTitle` and `GetRuleUrl` hold what the methods of these names
return; `GetRuleUrl` returns a string together with an optional error. -/
structure EvalContext where
  Rule : Rule
  GetNotificationTitle : GoString
  GetRuleUrl : GoString × Option GoError
  ImagePublicUrl : GoString
  ImageOnDiskPath : GoString
  EvalMatches : List EvalMatch
deriving DecidableEq, Repr

/-- The command `m.SendWebhookSync` handed to the dispatcher. `HttpHeader`
lists the entries of the header map. -/
structure SendWebhookSync where
  Url : GoString
  Body : GoString
  HttpMethod : GoString
  HttpHeader : List (GoString × GoString)
deriving DecidableEq, Repr

/-- The configuration fields of `TelegramNotifier`. -/
structure TelegramNotifier where
  BotToken : GoString
  ChatID : GoString
  UploadImage : Bool
deriving DecidableEq, Repr

/-! ## The outside world -/

deriving instance DecidableEq for Except

/-- An opened file as a reader sees it: the bytes that reads deliver, and the
error, if any, with which reading stops in place of `io.EOF`. -/
structure OsFile where
  content : GoString
  readErr : Option GoError
deriving DecidableEq, Repr

/-- What a call of `Notify` gets from outside the notifier. -/
structure Env where
  /-- The outcome of `os.Open` for each path. -/
  osOpen : GoString → Except GoError OsFile
  /-- The boundary that `multipart.NewWriter` draws at random. Each call of
  `buildMessage` creates at most one writer. -/
  randomBoundary : GoString
  /-- The answer of `bus.DispatchCtx` for each command. -/
  dispatch : SendWebhookSync → Option GoError

/-- The calls a run makes on the outside world. -/
inductive Event where
  | osOpen (path : GoString)
  | dispatch (cmd : SendWebhookSync)
deriving DecidableEq, Repr

/-! ## `mime/multipart.Writer` over a `bytes.Buffer` -/

/-- A `multipart.Writer` together with the buffer it writes into. `lastpart`
tells whether a part has been started. -/
structure Writer where
  body : GoString
  boundary : GoString
  lastpart : Bool
deriving DecidableEq, Repr

/-- The writer made by `multipart.NewWriter(&body)` on an empty buffer. -/
def NewWriter (boundary : GoString) : Writer :=
  { body := [], boundary := boundary, lastpart := false }

/-- The helper `escapeQuotes`: a backslash or a double quote gets a backslash
in front. This is the escaping of the library releases of the time of the
source; later releases also write a line break of a file name as `%0D` and
`%0A`, which makes a difference only for a name that holds a line break. -/
def escapeQuotes : GoString → GoString
  | [] => []
  | b :: rest =>
    if b = 92 ∨ b = 34 then 92 :: b :: escapeQuotes rest else b :: escapeQuotes rest

/-- The method `Writer.CreatePart`: the boundary line, the header lines (given in key
order), and the empty line that ends the header. -/
def Writer.CreatePart (w : Writer) (header : List (GoString × GoString)) : Writer :=
  let b :=
    if w.lastpart then str "\r\n--" ++ w.boundary ++ str "\r\n"
    else str "--" ++ w.boundary ++ str "\r\n"
  let b := header.foldl (fun b kv => b ++ (kv.1 ++ str ": " ++ kv.2 ++ str "\r\n")) b
  { w with body := w.body ++ (b ++ str "\r\n"), lastpart := true }

/-- The method `Writer.CreateFormField`: a part with one header line. -/
def Writer.CreateFormField (w : Writer) (fieldname : GoString) : Writer :=
  w.CreatePart
    [(str "Content-Disposition", str "form-data; name=\"" ++ escapeQuotes fieldname ++ str "\"")]

/-- The method `Writer.CreateFormFile`: a part with a file name and the
generic content type. -/
def Writer.CreateFormFile (w : Writer) (fieldname filename : GoString) : Writer :=
  w.CreatePart
    [(str "Content-Disposition",
        str "form-data; name=\"" ++ escapeQuotes fieldname ++ str "\"; filename=\""
          ++ escapeQuotes filename ++ str "\""),
     (str "Content-Type", str "application/octet-stream")]

/-- Writing bytes to the part returned by `CreateFormField` or `CreateFormFile`. -/
def Writer.Write (w : Writer) (p : GoString) : Writer :=
  { w with body := w.body ++ p }

/-- The method `Writer.Close`: the closing boundary line. -/
def Writer.Close (w : Writer) : Writer :=
  { w with body := w.body ++ (str "\r\n--" ++ w.boundary ++ str "--\r\n") }

/-- The method `Writer.FormDataContentType`. -/
def Writer.FormDataContentType (w : Writer) : GoString :=
  str "multipart/form-data; boundary=" ++ w.boundary

/-- The call `io.Copy(fw, imageFile)`: everything read before the end of the file or a
read error is written to the part; the error of the read is the result. -/
def ioCopy (w : Writer) (src : OsFile) : Writer × Option GoError :=
  (w.Write src.content, src.readErr)

/-! ## The notifier -/

/-- The enumeration loop of `buildLinkedMessage`: `index` and `metrics` are the
loop variables, the list holds the matches not yet visited. -/
def linkedMetricsLoop (fieldLimitCount : Nat) : Nat → List EvalMatch → GoString → GoString
  | _, [], metrics => metrics
  | index, evt :: rest, metrics =>
    let metrics := metrics ++ (str "\n" ++ evt.Metric ++ str ": " ++ evt.Value)
    if index > fieldLimitCount then metrics
    else linkedMetricsLoop fieldLimitCount (index + 1) rest metrics

/-- The value of `metrics` after the loop of `buildLinkedMessage`. -/
def linkedMetrics (evalContext : EvalContext) : GoString :=
  linkedMetricsLoop 4 0 evalContext.EvalMatches []

/-- The value of `message` in `buildLinkedMessage` when the body is written. -/
def linkedMessage (evalContext : EvalContext) : GoString :=
  let message :=
    str "<b>" ++ evalContext.GetNotificationTitle ++ str "</b>\nState: "
      ++ evalContext.Rule.Name ++ str "\nMessage: " ++ evalContext.Rule.Message ++ str "\n"
  let (ruleUrl, err) := evalContext.GetRuleUrl
  let message :=
    if err = none then message ++ (str "URL: " ++ ruleUrl ++ str "\n") else message
  let message :=
    if evalContext.ImagePublicUrl ≠ [] then
      message ++ (str "Image: " ++ evalContext.ImagePublicUrl ++ str "\n")
    else message
  let metrics := linkedMetrics evalContext
  if metrics ≠ [] then message ++ (str "\n<i>Metrics:</i>" ++ metrics) else message

/-- The method `buildLinkedMessage`. -/
def buildLinkedMessage (env : Env) (this : TelegramNotifier) (evalContext : EvalContext) :
    SendWebhookSync :=
  let message := linkedMessage evalContext
  let w := NewWriter env.randomBoundary
  let w := (w.CreateFormField (str "chat_id")).Write this.ChatID
  let w := (w.CreateFormField (str "text")).Write message
  let w := (w.CreateFormField (str "parse_mode")).Write (str "html")
  let w := w.Close
  let apiMethod := str "sendMessage"
  { Url := telegramApiUrl this.BotToken apiMethod
    Body := w.body
    HttpMethod := str "POST"
    HttpHeader := [(str "Content-Type", w.FormDataContentType)] }

/-- The function `appendIfPossible`. -/
def appendIfPossible (message extra : GoString) (sizeLimit : Nat) : GoString :=
  if extra.length + message.length ≤ sizeLimit then message ++ extra else message

/-- The function `generateImageCaption`. -/
def generateImageCaption (evalContext : EvalContext) (ruleUrl metrics : GoString) : GoString :=
  let message :=
    evalContext.GetNotificationTitle ++ str "\nMessage: " ++ evalContext.Rule.Message ++ str "\n"
  let message :=
    if message.length > captionLengthLimit then message.take captionLengthLimit else message
  let message :=
    if ruleUrl.length > 0 then
      appendIfPossible message (str "URL: " ++ ruleUrl ++ str "\n") captionLengthLimit
    else message
  if metrics ≠ [] then
    appendIfPossible message (str "\nMetrics:" ++ metrics) captionLengthLimit
  else message

/-- The enumeration loop of `buildInlineMessage`. -/
def inlineMetricsLoop (fieldLimitCount : Nat) : Nat → List EvalMatch → GoString → GoString
  | _, [], metrics => metrics
  | index, evt :: rest, metrics =>
    let metrics := metrics ++ (str "\n" ++ evt.Metric ++ str ": " ++ evt.Value)
    if index > fieldLimitCount then metrics
    else inlineMetricsLoop fieldLimitCount (index + 1) rest metrics

/-- The value of `metrics` after the loop of `buildInlineMessage`. -/
def inlineMetrics (evalContext : EvalContext) : GoString :=
  inlineMetricsLoop 4 0 evalContext.EvalMatches []

/-- The method `buildInlineMessage`: the command or the error it returns, and
the calls it makes. The result of `io.Copy` is dropped, as in the source. -/
def buildInlineMessage (env : Env) (this : TelegramNotifier) (evalContext : EvalContext) :
    Except GoError SendWebhookSync × List Event :=
  match env.osOpen evalContext.ImageOnDiskPath with
  | .error err => (.error err, [Event.osOpen evalContext.ImageOnDiskPath])
  | .ok imageFile =>
    let (ruleUrl, _) := evalContext.GetRuleUrl
    let metrics := inlineMetrics evalContext
    let message := generateImageCaption evalContext ruleUrl metrics
    let w := NewWriter env.randomBoundary
    let w := (w.CreateFormField (str "chat_id")).Write this.ChatID
    let w := (w.CreateFormField (str "caption")).Write message
    let w := w.CreateFormFile (str "photo") evalContext.ImageOnDiskPath
    let (w, _) := ioCopy w imageFile
    let w := w.Close
    (.ok
      { Url := telegramApiUrl this.BotToken (str "sendPhoto")
        Body := w.body
        HttpMethod := str "POST"
        HttpHeader := [(str "Content-Type", w.FormDataContentType)] },
     [Event.osOpen evalContext.ImageOnDiskPath])

/-- The method `buildMessage`. -/
def buildMessage (env : Env) (this : TelegramNotifier) (evalContext : EvalContext)
    (sendImageInline : Bool) : SendWebhookSync × List Event :=
  if sendImageInline then
    match buildInlineMessage env this evalContext with
    | (.ok cmd, calls) => (cmd, calls)
    | (.error _, calls) => (buildLinkedMessage env this evalContext, calls)
  else (buildLinkedMessage env this evalContext, [])

/-- The method `Notify`: the error it returns (`none` for nil) and the calls it
makes, in order. -/
def Notify (env : Env) (this : TelegramNotifier) (evalContext : EvalContext) :
    Option GoError × List Event :=
  let (cmd, calls) :=
    if evalContext.ImagePublicUrl = [] ∧ this.UploadImage = true then
      buildMessage env this evalContext true
    else buildMessage env this evalContext false
  match env.dispatch cmd with
  | some err => (some err, calls ++ [Event.dispatch cmd])
  | none => (none, calls ++ [Event.dispatch cmd])

/-! ## Named parts of `generateImageCaption` -/

/-- The first value of `message` in `generateImageCaption`, before any cut. -/
def captionBase (evalContext : EvalContext) : GoString :=
  evalContext.GetNotificationTitle ++ str "\nMessage: " ++ evalContext.Rule.Message ++ str "\n"

/-- The base string after the cut of `generateImageCaption`. -/
def captionCut (evalContext : EvalContext) : GoString :=
  if (captionBase evalContext).length > captionLengthLimit then
    (captionBase evalContext).take captionLengthLimit
  else captionBase evalContext

/-- The caption once the URL line has been tried. -/
def captionWithUrl (evalContext : EvalContext) (ruleUrl : GoString) : GoString :=
  if ruleUrl.length > 0 then
    appendIfPossible (captionCut evalContext) (str "URL: " ++ ruleUrl ++ str "\n")
      captionLengthLimit
  else captionCut evalContext

/-! ## Sample inputs -/

/-- A context whose base string has 205 bytes: a title of 194 letters `a` and
an empty rule message. -/
def longTitleContext : EvalContext :=
  { Rule := { Name := str "r", Message := [], State := str "alerting" }
    GetNotificationTitle := List.replicate 194 97
    GetRuleUrl := (str "http://g/d/1", none)
    ImagePublicUrl := []
    ImageOnDiskPath := str "/tmp/i.png"
    EvalMatches := [{ Metric := str "cpu", Value := str "95%" }] }

/-- The context of the worked example: title `High CPU`, message
`CPU above 90%`, no rule URL, no public image URL, two matches. -/
def cpuContext : EvalContext :=
  { Rule := { Name := str "cpu-rule", Message := str "CPU above 90%", State := str "alerting" }
    GetNotificationTitle := str "High CPU"
    GetRuleUrl := ([], some { msg := "no app url" })
    ImagePublicUrl := []
    ImageOnDiskPath := str "/tmp/missing.png"
    EvalMatches :=
      [{ Metric := str "cpu", Value := str "95%" }, { Metric := str "cpu", Value := str "96%" }] }

/-- A notifier that uploads images. -/
def uploadNotifier : TelegramNotifier :=
  { BotToken := str "123:abc", ChatID := str "-42", UploadImage := true }

/-- A world in which no file can be opened and every dispatch succeeds. -/
def noFileEnv : Env :=
  { osOpen := fun _ => .error { msg := "open: no such file or directory" }
    randomBoundary := str "b0"
    dispatch := fun _ => none }

/-- A context with six matches `m0` to `m5`; the rest as in the worked
example. -/
def sixMatchContext : EvalContext :=
  { cpuContext with
    EvalMatches :=
      [{ Metric := str "m0", Value := str "0" }, { Metric := str "m1", Value := str "1" },
       { Metric := str "m2", Value := str "2" }, { Metric := str "m3", Value := str "3" },
       { Metric := str "m4", Value := str "4" }, { Metric := str "m5", Value := str "5" }] }

/-- A world in which every path opens (as a directory does) and the first
read fails; every dispatch succeeds. -/
def dirEnv : Env :=
  { osOpen := fun _ => .ok { content := [], readErr := some { msg := "read: is a directory" } }
    randomBoundary := str "b0"
    dispatch := fun _ => none }

/-- The worked example with an image path that names a directory. -/
def dirContext : EvalContext :=
  { cpuContext with ImageOnDiskPath := str "/tmp" }

/-- A context whose title is one hundred letters `é`, two bytes each, with
an empty rule message: a base string of 111 characters and 211 bytes. -/
def accentContext : EvalContext :=
  { cpuContext with
    Rule := { Name := str "r", Message := str "", State := str "alerting" }
    GetNotificationTitle := str (String.mk (List.replicate 100 'é')) }

/-- The rendering of one match in the enumeration loops. -/
def renderMatch (evt : EvalMatch) : GoString :=
  str "\n" ++ evt.Metric ++ str ": " ++ evt.Value

/-! ## Form fields -/

/-- One form field as the notifier writes it: its name, the file name when it
is a file field, and the bytes written to it. -/
structure FormPart where
  fieldname : GoString
  filename : Option GoString
  content : GoString
deriving DecidableEq, Repr

/-- Creating one field on the writer and writing its content: through
`CreateFormField` for a plain field, through `CreateFormFile` for a file. -/
def Writer.writePart (w : Writer) (p : FormPart) : Writer :=
  match p.filename with
  | none => (w.CreateFormField p.fieldname).Write p.content
  | some filename => (w.CreateFormFile p.fieldname filename).Write p.content

/-- A new writer on which the given fields are written in order and which is
then closed. -/
def writeForm (boundary : GoString) (parts : List FormPart) : Writer :=
  (parts.foldl Writer.writePart (NewWriter boundary)).Close

/-! ## Construction of the notifier -/

/-- Modelled from the spec: the settings object `model.Settings` (a
`simplejson.Json`, whose code is not among the sources): a bot token and a
chat identifier that are strings and an upload-image flag that is a boolean,
each of which may be absent. -/
structure Settings where
  bottoken : Option GoString
  chatid : Option GoString
  uploadImage : Option Bool
deriving DecidableEq, Repr

/-- Modelled from the spec: `Get(key).MustString()` on a settings object, the
string stored under the key and the empty string when there is none. -/
def MustString (value : Option GoString) : GoString :=
  value.getD []

/-- Modelled from the spec: `Get(key).MustBool()` on a settings object, the
boolean stored under the key and `false` when there is none. -/
def MustBool (value : Option Bool) : Bool :=
  value.getD false

/-- The fields of `m.AlertNotification` that `NewTelegramNotifier` reads
(`TypeName` stands for the field `Type`); `Settings` is `none` for a nil
pointer. -/
structure AlertNotification where
  Id : Int
  IsDefault : Bool
  Name : GoString
  TypeName : GoString
  Settings : Option Settings
deriving DecidableEq, Repr

/-- The error `alerting.ValidationError`. -/
structure ValidationError where
  Reason : String
deriving DecidableEq, Repr

/-- The function `NewTelegramNotifier`. The embedded `NotifierBase` and the
logger of the notifier are read by no method modelled here and are left out. -/
def NewTelegramNotifier (model : AlertNotification) : Except ValidationError TelegramNotifier :=
  match model.Settings with
  | none => .error { Reason := "No Settings Supplied" }
  | some settings =>
    let botToken := MustString settings.bottoken
    let chatId := MustString settings.chatid
    let uploadImage := MustBool settings.uploadImage
    if botToken = [] then .error { Reason := "Could not find Bot Token in settings" }
    else if chatId = [] then .error { Reason := "Could not find Chat Id in settings" }
    else .ok { BotToken := botToken, ChatID := chatId, UploadImage := uploadImage }

/-- Whether a call is a dispatch. -/
def Event.isDispatch : Event → Bool
  | .dispatch _ => true
  | .osOpen _ => false

/-! ## More sample inputs -/

/-- A world in which every path opens on a file of four bytes that reads to
its end; every dispatch succeeds. -/
def imageEnv : Env :=
  { osOpen := fun _ => .ok { content := [137, 80, 78, 71], readErr := none }
    randomBoundary := str "b0"
    dispatch := fun _ => none }

/-- A model with a bot token and a chat identifier and no upload-image flag. -/
def sampleModel : AlertNotification :=
  { Id := 1, IsDefault := false, Name := str "ops", TypeName := str "telegram"
    Settings := some { bottoken := some (str "123:abc"), chatid := some (str "-42"),
                       uploadImage := none } }

/-- A context whose base string has 180 bytes: a title of 169 letters `a` and
an empty rule message. -/
def roomForMetricsContext : EvalContext :=
  { cpuContext with
    Rule := { Name := str "r", Message := [], State := str "alerting" }
    GetNotificationTitle := List.replicate 169 97 }

/-! ## Reading a form back

A reader of `multipart/form-data` bodies in the way of
`mime/multipart.Reader`: the body opens with the boundary line; each part is
a header block that ends at the first empty line and a content that ends at
the first line break followed by `--` and the boundary; after the boundary
comes `--` for the end of the form or a line break and the next part. -/

/-- The bytes before and after the first occurrence of `sep`. -/
def splitAtFirst (sep : GoString) : GoString → Option (GoString × GoString)
  | [] => if sep = [] then some ([], []) else none
  | b :: rest =>
    if sep.isPrefixOf (b :: rest) then some ([], (b :: rest).drop sep.length)
    else (splitAtFirst sep rest).map (fun r => (b :: r.1, r.2))

/-- The parts that follow an opening boundary line, each as its header block
and its content. `delim` is the line break followed by `--` and the boundary.
Every part read uses up one unit of `fuel`. -/
def readParts (delim : GoString) : Nat → GoString → Option (List (GoString × GoString))
  | 0, _ => none
  | fuel + 1, input =>
    match splitAtFirst (str "\r\n\r\n") input with
    | none => none
    | some (header, rest) =>
      match splitAtFirst delim rest with
      | none => none
      | some (content, rest) =>
        if (str "--").isPrefixOf rest then some [(header, content)]
        else if (str "\r\n").isPrefixOf rest then
          (readParts delim fuel (rest.drop 2)).map (fun parts => (header, content) :: parts)
        else none

/-- The parts of a body for a given boundary. A body holds fewer parts than
bytes, so its length is fuel enough. -/
def parseMultipart (boundary body : GoString) : Option (List (GoString × GoString)) :=
  if (str "--" ++ boundary ++ str "\r\n").isPrefixOf body then
    readParts (str "\r\n--" ++ boundary) body.length
      (body.drop (str "--" ++ boundary ++ str "\r\n").length)
  else none

/-- A quoted string read up to its closing quote, a backslash taking the next
byte as it is; with it, the bytes after the closing quote. -/
def readQuoted : GoString → Option (GoString × GoString)
  | [] => none
  | 34 :: rest => some ([], rest)
  | 92 :: c :: rest => (readQuoted rest).map (fun r => (c :: r.1, r.2))
  | c :: rest => (readQuoted rest).map (fun r => (c :: r.1, r.2))

/-- The field name of a part, as `Part.FormName` gives it: the `name`
parameter of a `Content-Disposition: form-data` header. -/
def formName (header : GoString) : Option GoString :=
  if (str "Content-Disposition: form-data; name=\"").isPrefixOf header then
    (readQuoted (header.drop (str "Content-Disposition: form-data; name=\"").length)).map
      (fun r => r.1)
  else none

/-- The fields of a list of parts: name and content of each. -/
def formFields : List (GoString × GoString) → Option (List (GoString × GoString))
  | [] => some []
  | (header, content) :: rest =>
    match formName header, formFields rest with
    | some name, some fields => some ((name, content) :: fields)
    | _, _ => none

/-- The boundary announced by a `Content-Type` value. -/
def boundaryParam (contentType : GoString) : Option GoString :=
  if (str "multipart/form-data; boundary=").isPrefixOf contentType then
    some (contentType.drop (str "multipart/form-data; boundary=").length)
  else none

/-- The form fields of a request: its body read with the boundary that its
`Content-Type` header announces. -/
def readRequestForm (cmd : SendWebhookSync) : Option (List (GoString × GoString)) :=
  match cmd.HttpHeader.lookup (str "Content-Type") with
  | none => none
  | some contentType =>
    match boundaryParam contentType with
    | none => none
    | some boundary =>
      match parseMultipart boundary cmd.Body with
      | none => none
      | some parts => formFields parts

/-! ## Reading the fields of a form with their file names -/

/-- The field name and, for a file field, the file name of a part, as
`Part.FormName` and `Part.FileName` give them: the `name` and `filename`
parameters of a `Content-Disposition: form-data` header. -/
def formDisposition (header : GoString) : Option (GoString × Option GoString) :=
  if (str "Content-Disposition: form-data; name=\"").isPrefixOf header then
    match readQuoted (header.drop (str "Content-Disposition: form-data; name=\"").length) with
    | none => none
    | some (name, rest) =>
      if (str "; filename=\"").isPrefixOf rest then
        match readQuoted (rest.drop (str "; filename=\"").length) with
        | none => none
        | some (filename, _) => some (name, some filename)
      else some (name, none)
  else none

/-- The fields of a list of parts: name, file name and content of each. -/
def formParts : List (GoString × GoString) → Option (List FormPart)
  | [] => some []
  | (header, content) :: rest =>
    match formDisposition header, formParts rest with
    | some (name, filename), some parts =>
      some ({ fieldname := name, filename := filename, content := content } :: parts)
    | _, _ => none

/-- The form fields of a request, file names included: its body read with the
boundary that its `Content-Type` header announces. -/
def readRequestParts (cmd : SendWebhookSync) : Option (List FormPart) :=
  match cmd.HttpHeader.lookup (str "Content-Type") with
  | none => none
  | some contentType =>
    match boundaryParam contentType with
    | none => none
    | some boundary =>
      match parseMultipart boundary cmd.Body with
      | none => none
      | some parts => formParts parts

/-- The header block that `CreateFormFile` writes for the field `photo` with
the given file name: the disposition line and the content type line. -/
def photoHeader (filename : GoString) : GoString :=
  str "Content-Disposition: form-data; name=\"" ++ (escapeQuotes (str "photo") ++
    (str "\"; filename=\"" ++ (escapeQuotes filename ++ (str "\"" ++
      (str "\r\n" ++ str "Content-Type: application/octet-stream")))))

/-! ## Sample inputs for boundary collisions -/

/-- A world whose boundary is sixty hexadecimal digits, as `multipart.NewWriter`
draws them; no file can be opened and every dispatch succeeds. -/
def hexBoundaryEnv : Env :=
  { osOpen := fun _ => .error { msg := "open: no such file or directory" }
    randomBoundary := str "0123456789abcdef0123456789abcdef0123456789abcdef0123456789ab"
    dispatch := fun _ => none }

/-- A notifier whose chat identifier holds the closing line of that boundary. -/
def closingLineNotifier : TelegramNotifier :=
  { BotToken := str "123:abc"
    ChatID := str "x\r\n--0123456789abcdef0123456789abcdef0123456789abcdef0123456789ab--\r\n"
    UploadImage := false }

/-- A notifier whose chat identifier holds a line of that boundary followed by
the header of a field `caption`. -/
def captionLineNotifier : TelegramNotifier :=
  { BotToken := str "123:abc"
    ChatID := str ("x\r\n--0123456789abcdef0123456789abcdef0123456789abcdef0123456789ab\r\n"
      ++ "Content-Disposition: form-data; name=\"caption\"\r\n\r\ny")
    UploadImage := false }

/-! ## Shared lemmas -/

theorem appendIfPossible_length_le (message extra : GoString) (sizeLimit : Nat)
    (h : message.length ≤ sizeLimit) :
    (appendIfPossible message extra sizeLimit).length ≤ sizeLimit := by
  unfold appendIfPossible
  split
  · rw [List.length_append]; omega
  · exact h

theorem appendIfPossible_full (message extra : GoString) (sizeLimit : Nat)
    (hm : sizeLimit ≤ message.length) (he : 0 < extra.length) :
    appendIfPossible message extra sizeLimit = message := by
  unfold appendIfPossible
  rw [if_neg (by omega)]

theorem urlLine_length (ruleUrl : GoString) :
    (str "URL: " ++ ruleUrl ++ str "\n").length = ruleUrl.length + 6 := by
  have h1 : (str "URL: ").length = 5 := by decide
  have h2 : (str "\n").length = 1 := by decide
  simp only [List.length_append, h1, h2]; omega

theorem metricsLines_length (metrics : GoString) :
    (str "\nMetrics:" ++ metrics).length = metrics.length + 9 := by
  have h1 : (str "\nMetrics:").length = 9 := by decide
  simp only [List.length_append, h1]; omega

/-- The caption is the cut base string followed by the two attempts to append. -/
theorem generateImageCaption_eq (evalContext : EvalContext) (ruleUrl metrics : GoString) :
    generateImageCaption evalContext ruleUrl metrics =
      if metrics ≠ [] then
        appendIfPossible (captionWithUrl evalContext ruleUrl) (str "\nMetrics:" ++ metrics)
          captionLengthLimit
      else captionWithUrl evalContext ruleUrl := rfl

theorem captionCut_length_le (evalContext : EvalContext) :
    (captionCut evalContext).length ≤ captionLengthLimit := by
  unfold captionCut
  split
  · rw [List.length_take]; omega
  · omega

theorem captionWithUrl_length_le (evalContext : EvalContext) (ruleUrl : GoString) :
    (captionWithUrl evalContext ruleUrl).length ≤ captionLengthLimit := by
  unfold captionWithUrl
  split
  · exact appendIfPossible_length_le _ _ _ (captionCut_length_le evalContext)
  · exact captionCut_length_le evalContext

/-- Trying to append a section adds it whole when it fits and nothing
otherwise. -/
theorem appendIfPossible_eq (message extra : GoString) (sizeLimit : Nat) :
    appendIfPossible message extra sizeLimit =
      message ++ (if message.length + extra.length ≤ sizeLimit then extra else []) := by
  unfold appendIfPossible
  by_cases hfit : extra.length + message.length ≤ sizeLimit
  · rw [if_pos hfit, if_pos (by omega)]
  · rw [if_neg hfit, if_neg (by omega), List.append_nil]

/-- The two attempts to append, started from any message `B`. -/
theorem append_sections (B u k : GoString) :
    (if k ≠ [] then
        appendIfPossible
          (if u.length > 0 then
            appendIfPossible B (str "URL: " ++ u ++ str "\n") captionLengthLimit
          else B)
          (str "\nMetrics:" ++ k) captionLengthLimit
      else
        (if u.length > 0 then
          appendIfPossible B (str "URL: " ++ u ++ str "\n") captionLengthLimit
        else B)) =
      B ++ (if u ≠ [] ∧ B.length + (str "URL: " ++ u ++ str "\n").length ≤ 200
            then str "URL: " ++ u ++ str "\n" else [])
        ++ (if k ≠ [] ∧
              (B ++ (if u ≠ [] ∧ B.length + (str "URL: " ++ u ++ str "\n").length ≤ 200
                then str "URL: " ++ u ++ str "\n" else [])).length
                + (str "\nMetrics:" ++ k).length ≤ 200
            then str "\nMetrics:" ++ k else []) := by
  have hurl : (if u.length > 0 then
        appendIfPossible B (str "URL: " ++ u ++ str "\n") captionLengthLimit
      else B) =
      B ++ (if u ≠ [] ∧ B.length + (str "URL: " ++ u ++ str "\n").length ≤ 200
            then str "URL: " ++ u ++ str "\n" else []) := by
    by_cases hu : u = []
    · subst hu
      simp
    · rw [if_pos (List.length_pos.mpr hu), appendIfPossible_eq]
      unfold captionLengthLimit
      by_cases hfit : B.length + (str "URL: " ++ u ++ str "\n").length ≤ 200
      · rw [if_pos hfit, if_pos ⟨hu, hfit⟩]
      · rw [if_neg hfit, if_neg (fun hc => hfit hc.2)]
  rw [hurl]
  generalize B ++ (if u ≠ [] ∧ B.length + (str "URL: " ++ u ++ str "\n").length ≤ 200
            then str "URL: " ++ u ++ str "\n" else []) = m1
  by_cases hk : k = []
  · subst hk
    simp
  · rw [if_pos hk, appendIfPossible_eq]
    unfold captionLengthLimit
    by_cases hfit : m1.length + (str "\nMetrics:" ++ k).length ≤ 200
    · rw [if_pos hfit, if_pos ⟨hk, hfit⟩]
    · rw [if_neg hfit, if_neg (fun hc => hfit hc.2)]

/-- The URL of the text endpoint: the token between the fixed prefix and the
fixed suffix. -/
theorem telegramApiUrl_sendMessage (botToken : GoString) :
    telegramApiUrl botToken (str "sendMessage") =
      str "https://api.telegram.org/bot" ++ botToken ++ str "/sendMessage" := by
  unfold telegramApiUrl
  rw [List.append_assoc _ (str "/") (str "sendMessage")]
  rfl

/-- The URL of the photo endpoint. -/
theorem telegramApiUrl_sendPhoto (botToken : GoString) :
    telegramApiUrl botToken (str "sendPhoto") =
      str "https://api.telegram.org/bot" ++ botToken ++ str "/sendPhoto" := by
  unfold telegramApiUrl
  rw [List.append_assoc _ (str "/") (str "sendPhoto")]
  rfl

/-- The loop of `buildLinkedMessage`, entered at index `index`, appends the
renderings of the next `fieldLimitCount + 2 - index` matches. -/
theorem linkedMetricsLoop_eq (fieldLimitCount : Nat) (ms : List EvalMatch) :
    ∀ (index : Nat) (metrics : GoString), index ≤ fieldLimitCount + 1 →
      linkedMetricsLoop fieldLimitCount index ms metrics =
        metrics ++ (ms.take (fieldLimitCount + 2 - index)).flatMap renderMatch := by
  induction ms with
  | nil => intro index metrics _; simp [linkedMetricsLoop]
  | cons evt rest ih =>
    intro index metrics hle
    unfold linkedMetricsLoop
    obtain ⟨d, hd⟩ : ∃ d, fieldLimitCount + 2 - index = d + 1 := ⟨fieldLimitCount + 1 - index, by omega⟩
    rw [hd, List.take_succ_cons, List.flatMap_cons]
    by_cases hgt : index > fieldLimitCount
    · have hd0 : d = 0 := by omega
      subst hd0
      simp [hgt, renderMatch]
    · simp only [hgt, if_false]
      rw [ih (index + 1) _ (by omega)]
      have hd2 : fieldLimitCount + 2 - (index + 1) = d := by omega
      rw [hd2]
      simp [renderMatch]

/-- The loop of `buildInlineMessage` computes what the loop of
`buildLinkedMessage` computes. -/
theorem inlineMetricsLoop_eq_linked (fieldLimitCount : Nat) (ms : List EvalMatch) :
    ∀ (index : Nat) (metrics : GoString),
      inlineMetricsLoop fieldLimitCount index ms metrics =
        linkedMetricsLoop fieldLimitCount index ms metrics := by
  induction ms with
  | nil => intro index metrics; rfl
  | cons evt rest ih =>
    intro index metrics
    unfold inlineMetricsLoop linkedMetricsLoop
    simp only [ih]

/-- Both metrics blocks are the renderings of the first six matches. -/
theorem metrics_eq_take_six (evalContext : EvalContext) :
    linkedMetrics evalContext = (evalContext.EvalMatches.take 6).flatMap renderMatch ∧
      inlineMetrics evalContext = (evalContext.EvalMatches.take 6).flatMap renderMatch := by
  have h := linkedMetricsLoop_eq 4 evalContext.EvalMatches 0 [] (by omega)
  refine ⟨by simpa [linkedMetrics] using h, ?_⟩
  unfold inlineMetrics
  rw [inlineMetricsLoop_eq_linked]
  simpa using h

/-- A base string of at least 200 bytes: the caption is its first 200 bytes. -/
theorem generateImageCaption_of_limit_le (evalContext : EvalContext)
    (ruleUrl metrics : GoString) (h : 200 ≤ (captionBase evalContext).length) :
    generateImageCaption evalContext ruleUrl metrics = (captionBase evalContext).take 200 := by
  have hcut : captionCut evalContext = (captionBase evalContext).take 200 := by
    unfold captionCut captionLengthLimit
    split
    · rfl
    · rw [List.take_of_length_le]
      omega
  have hlen : ((captionBase evalContext).take 200).length = 200 := by
    rw [List.length_take]
    exact Nat.min_eq_left h
  have hurl : captionWithUrl evalContext ruleUrl = (captionBase evalContext).take 200 := by
    unfold captionWithUrl
    rw [hcut]
    split
    · apply appendIfPossible_full
      · rw [hlen]; exact Nat.le_refl _
      · rw [urlLine_length]; omega
    · rfl
  have hres : generateImageCaption evalContext ruleUrl metrics =
      (captionBase evalContext).take 200 := by
    rw [generateImageCaption_eq, hurl]
    split
    · apply appendIfPossible_full
      · rw [hlen]; exact Nat.le_refl _
      · rw [metricsLines_length]; omega
    · rfl
  exact hres

/-- A base string `B` of at most 200 bytes: the caption is `B` followed by
the sections that fit. -/
theorem generateImageCaption_of_le_limit (evalContext : EvalContext) (u k : GoString)
    (h : (captionBase evalContext).length ≤ 200) :
    generateImageCaption evalContext u k =
      captionBase evalContext
        ++ (if u ≠ [] ∧ (captionBase evalContext).length
                + (str "URL: " ++ u ++ str "\n").length ≤ 200
            then str "URL: " ++ u ++ str "\n" else [])
        ++ (if k ≠ [] ∧
              (captionBase evalContext
                ++ (if u ≠ [] ∧ (captionBase evalContext).length
                        + (str "URL: " ++ u ++ str "\n").length ≤ 200
                    then str "URL: " ++ u ++ str "\n" else [])).length
                + (str "\nMetrics:" ++ k).length ≤ 200
            then str "\nMetrics:" ++ k else []) := by
  have hcut : captionCut evalContext = captionBase evalContext := by
    unfold captionCut captionLengthLimit
    rw [if_neg (by omega)]
  rw [generateImageCaption_eq]
  unfold captionWithUrl
  rw [hcut]
  exact append_sections (captionBase evalContext) u k

/-- A base string of at most 200 bytes is a prefix of the caption. -/
theorem captionBase_prefix (evalContext : EvalContext) (u k : GoString)
    (h : (captionBase evalContext).length ≤ 200) :
    captionBase evalContext <+: generateImageCaption evalContext u k := by
  rw [generateImageCaption_of_le_limit evalContext u k h, List.append_assoc]
  exact List.prefix_append _ _

/-! ### Text of one byte per character -/

/-- A character up to U+007F is encoded in one byte. -/
theorem utf8EncodeChar_length_of_ascii (c : Char) (h : c.val ≤ 127) :
    (String.utf8EncodeChar c).length = 1 := by
  rw [String.length_utf8EncodeChar]
  unfold Char.utf8Size
  exact if_pos h

/-- The bytes of a concatenation are the bytes of its parts. -/
theorem str_append (a b : String) : str (a ++ b) = str a ++ str b := by
  simp [str, String.data_append]

/-- For text of one byte per character the byte count is the character count. -/
theorem flatMap_length_of_ascii (l : List Char) (h : ∀ c ∈ l, c.val ≤ 127) :
    (l.flatMap String.utf8EncodeChar).length = l.length := by
  induction l with
  | nil => rfl
  | cons c rest ih =>
    rw [List.flatMap_cons, List.length_append, utf8EncodeChar_length_of_ascii c
      (h c (List.mem_cons_self c rest)), ih (fun d hd => h d (List.mem_cons_of_mem c hd)),
      List.length_cons]
    omega

/-- For text of one byte per character, the first `n` bytes are the bytes of
the first `n` characters. -/
theorem flatMap_take_of_ascii (l : List Char) (h : ∀ c ∈ l, c.val ≤ 127) (n : Nat) :
    (l.flatMap String.utf8EncodeChar).take n = (l.take n).flatMap String.utf8EncodeChar := by
  induction l generalizing n with
  | nil => simp
  | cons c rest ih =>
    cases n with
    | zero => simp
    | succ n =>
      have hc := utf8EncodeChar_length_of_ascii c (h c (List.mem_cons_self c rest))
      obtain ⟨b, hb⟩ : ∃ b, String.utf8EncodeChar c = [b] := List.length_eq_one.mp hc
      rw [List.take_succ_cons, List.flatMap_cons, List.flatMap_cons, hb]
      show b :: (rest.flatMap String.utf8EncodeChar).take n = _
      rw [ih (fun d hd => h d (List.mem_cons_of_mem c hd)) n]
      rfl

/-! ### Requests and forms -/

/-- Writing one field only appends to the buffer and keeps the boundary. -/
theorem writePart_body (w : Writer) (p : FormPart) :
    w.body <+: (w.writePart p).body ∧ (w.writePart p).boundary = w.boundary := by
  unfold Writer.writePart
  cases p.filename with
  | none =>
    exact ⟨by simp only [Writer.Write, Writer.CreateFormField, Writer.CreatePart,
      List.append_assoc, List.prefix_append], rfl⟩
  | some filename =>
    exact ⟨by simp only [Writer.Write, Writer.CreateFormFile, Writer.CreatePart,
      List.append_assoc, List.prefix_append], rfl⟩

/-- Writing fields one after the other only appends to the buffer and keeps
the boundary. -/
theorem foldl_writePart_body (parts : List FormPart) :
    ∀ w : Writer, w.body <+: (parts.foldl Writer.writePart w).body ∧
      (parts.foldl Writer.writePart w).boundary = w.boundary := by
  induction parts with
  | nil => intro w; exact ⟨List.prefix_refl _, rfl⟩
  | cons p ps ih =>
    intro w
    obtain ⟨h1, b1⟩ := writePart_body w p
    obtain ⟨h2, b2⟩ := ih (w.writePart p)
    exact ⟨by rw [List.foldl_cons]; exact h1.trans h2, by rw [List.foldl_cons, b2, b1]⟩

/-- A form ends with the closing boundary line. -/
theorem writeForm_body_suffix (boundary : GoString) (parts : List FormPart) :
    str "\r\n--" ++ boundary ++ str "--\r\n" <:+ (writeForm boundary parts).body := by
  obtain ⟨_, hb⟩ := foldl_writePart_body parts (NewWriter boundary)
  unfold writeForm Writer.Close
  rw [hb]
  exact List.suffix_append _ _

/-- A form with at least one field starts with the boundary line. -/
theorem writeForm_body_prefix (boundary : GoString) (p : FormPart) (ps : List FormPart) :
    str "--" ++ boundary ++ str "\r\n" <+: (writeForm boundary (p :: ps)).body := by
  obtain ⟨ht, _⟩ := foldl_writePart_body ps ((NewWriter boundary).writePart p)
  have hfirst : str "--" ++ boundary ++ str "\r\n" <+: ((NewWriter boundary).writePart p).body := by
    unfold Writer.writePart
    cases p.filename with
    | none =>
      simp only [Writer.Write, Writer.CreateFormField, Writer.CreatePart, NewWriter,
        List.foldl, List.append_assoc, List.nil_append, Bool.false_eq_true, if_false,
        List.prefix_append_right_inj, List.prefix_append]
    | some filename =>
      simp only [Writer.Write, Writer.CreateFormFile, Writer.CreatePart, NewWriter,
        List.foldl, List.append_assoc, List.nil_append, Bool.false_eq_true, if_false,
        List.prefix_append_right_inj, List.prefix_append]
  unfold writeForm Writer.Close
  rw [List.foldl_cons]
  exact (hfirst.trans ht).trans (List.prefix_append _ _)

/-- A request returned by `buildInlineMessage`, spelled out. -/
theorem buildInlineMessage_ok (env : Env) (this : TelegramNotifier) (evalContext : EvalContext)
    (cmd : SendWebhookSync) (h : (buildInlineMessage env this evalContext).1 = .ok cmd) :
    ∃ imageFile, env.osOpen evalContext.ImageOnDiskPath = .ok imageFile ∧
      cmd =
        { Url := telegramApiUrl this.BotToken (str "sendPhoto")
          Body :=
            (writeForm env.randomBoundary
              [{ fieldname := str "chat_id", filename := none, content := this.ChatID },
               { fieldname := str "caption", filename := none,
                 content := generateImageCaption evalContext evalContext.GetRuleUrl.1
                   (inlineMetrics evalContext) },
               { fieldname := str "photo", filename := some evalContext.ImageOnDiskPath,
                 content := imageFile.content }]).body
          HttpMethod := str "POST"
          HttpHeader :=
            [(str "Content-Type", str "multipart/form-data; boundary=" ++ env.randomBoundary)] } := by
  unfold buildInlineMessage at h
  cases hopen : env.osOpen evalContext.ImageOnDiskPath with
  | error err => rw [hopen] at h; cases h
  | ok imageFile =>
    rw [hopen] at h
    refine ⟨imageFile, rfl, ?_⟩
    injection h with h
    rw [← h]
    rfl

/-- The text request, spelled out. -/
theorem buildLinkedMessage_eq (env : Env) (this : TelegramNotifier)
    (evalContext : EvalContext) :
    buildLinkedMessage env this evalContext =
      { Url := telegramApiUrl this.BotToken (str "sendMessage")
        Body :=
          (writeForm env.randomBoundary
            [{ fieldname := str "chat_id", filename := none, content := this.ChatID },
             { fieldname := str "text", filename := none, content := linkedMessage evalContext },
             { fieldname := str "parse_mode", filename := none, content := str "html" }]).body
        HttpMethod := str "POST"
        HttpHeader :=
          [(str "Content-Type", str "multipart/form-data; boundary=" ++ env.randomBoundary)] } :=
  rfl

/-! ### Calls -/

/-- The one call of `buildInlineMessage` is `os.Open` on the image path. -/
theorem buildInlineMessage_calls (env : Env) (this : TelegramNotifier)
    (evalContext : EvalContext) :
    (buildInlineMessage env this evalContext).2 = [Event.osOpen evalContext.ImageOnDiskPath] := by
  unfold buildInlineMessage
  split <;> rfl

/-- With `sendImageInline` set, `buildMessage` returns the inline request when
there is one and the link-style request otherwise, after the calls of
`buildInlineMessage`. -/
theorem buildMessage_true (env : Env) (this : TelegramNotifier) (evalContext : EvalContext) :
    buildMessage env this evalContext true =
      (match (buildInlineMessage env this evalContext).1 with
        | .ok cmd => cmd
        | .error _ => buildLinkedMessage env this evalContext,
       [Event.osOpen evalContext.ImageOnDiskPath]) := by
  have hcalls := buildInlineMessage_calls env this evalContext
  unfold buildMessage
  rcases hpair : buildInlineMessage env this evalContext with ⟨res, calls⟩
  rw [hpair] at hcalls
  simp only at hcalls
  subst hcalls
  cases res <;> rfl

/-- The result and the calls of `Notify`, in terms of the request built. -/
theorem Notify_eq (env : Env) (this : TelegramNotifier) (evalContext : EvalContext) :
    Notify env this evalContext =
      (env.dispatch
          (buildMessage env this evalContext
            (decide (evalContext.ImagePublicUrl = [] ∧ this.UploadImage = true))).1,
        (buildMessage env this evalContext
            (decide (evalContext.ImagePublicUrl = [] ∧ this.UploadImage = true))).2
          ++ [Event.dispatch
            (buildMessage env this evalContext
              (decide (evalContext.ImagePublicUrl = [] ∧ this.UploadImage = true))).1]) := by
  unfold Notify
  by_cases hc : evalContext.ImagePublicUrl = [] ∧ this.UploadImage = true
  · rw [if_pos hc, decide_eq_true hc]
    cases hd : env.dispatch (buildMessage env this evalContext true).1 <;> simp [hd]
  · rw [if_neg hc, decide_eq_false hc]
    cases hd : env.dispatch (buildMessage env this evalContext false).1 <;> simp [hd]

/-- No call of `buildMessage` is a dispatch. -/
theorem buildMessage_no_dispatch (env : Env) (this : TelegramNotifier)
    (evalContext : EvalContext) (sendImageInline : Bool) :
    (buildMessage env this evalContext sendImageInline).2.filter Event.isDispatch = [] := by
  cases sendImageInline with
  | false => rfl
  | true => rw [buildMessage_true]; rfl

/-- The renderings of a list of matches are empty only for the empty list. -/
theorem flatMap_renderMatch_eq_nil (ms : List EvalMatch) :
    ms.flatMap renderMatch = [] ↔ ms = [] := by
  cases ms with
  | nil => simp
  | cons evt rest =>
    have h1 : str "\n" = [10] := by decide
    simp [List.flatMap_cons, renderMatch, h1]

/-- The link-style text without its Image line, when there is no public
image URL. -/
theorem linkedMessage_of_no_image (evalContext : EvalContext)
    (himg : evalContext.ImagePublicUrl = []) :
    linkedMessage evalContext =
      (str "<b>" ++ evalContext.GetNotificationTitle ++ str "</b>\nState: "
          ++ evalContext.Rule.Name ++ str "\nMessage: " ++ evalContext.Rule.Message ++ str "\n")
        ++ (if evalContext.GetRuleUrl.2 = none then
              str "URL: " ++ evalContext.GetRuleUrl.1 ++ str "\n" else [])
        ++ (if linkedMetrics evalContext ≠ [] then
              str "\n<i>Metrics:</i>" ++ linkedMetrics evalContext else []) := by
  unfold linkedMessage
  rcases hurl : evalContext.GetRuleUrl with ⟨ruleUrl, err⟩
  simp only []
  by_cases he : err = none <;>
    by_cases hm : linkedMetrics evalContext = [] <;> simp [he, himg, hm]

/-! ### The reader on what the writer wrote -/

/-- A separator at the very start is found there. -/
theorem splitAtFirst_sep_append (sep rest : GoString) :
    splitAtFirst sep (sep ++ rest) = some ([], rest) := by
  cases hl : sep ++ rest with
  | nil =>
    obtain ⟨hs, hr⟩ := List.append_eq_nil.mp hl
    subst hs hr
    rfl
  | cons b l =>
    unfold splitAtFirst
    have hp : sep.isPrefixOf (b :: l) = true := by
      rw [List.isPrefixOf_iff_prefix, ← hl]
      exact List.prefix_append _ _
    rw [if_pos hp, ← hl, List.drop_left]

/-- A separator that starts at no earlier place is found after `pre`. -/
theorem splitAtFirst_append (sep rest : GoString) :
    ∀ pre : GoString,
      (∀ suf : GoString, suf ≠ [] → suf <:+ pre → ¬ sep <+: suf ++ (sep ++ rest)) →
      splitAtFirst sep (pre ++ (sep ++ rest)) = some (pre, rest) := by
  intro pre
  induction pre with
  | nil => intro _; exact splitAtFirst_sep_append sep rest
  | cons a pre ih =>
    intro h
    have hnp : sep.isPrefixOf (a :: (pre ++ (sep ++ rest))) = false := by
      rw [Bool.eq_false_iff]
      intro hp
      rw [List.isPrefixOf_iff_prefix] at hp
      exact h (a :: pre) (List.cons_ne_nil _ _) (List.suffix_refl _) hp
    rw [List.cons_append]
    unfold splitAtFirst
    rw [hnp, ih (fun suf hne hs => h suf hne (hs.trans (List.suffix_cons a pre)))]
    rfl

/-- A separator whose first byte does not occur in `pre` is found after
`pre`. -/
theorem splitAtFirst_of_head_not_mem (c : UInt8) (s pre rest : GoString) (h : c ∉ pre) :
    splitAtFirst (c :: s) (pre ++ ((c :: s) ++ rest)) = some (pre, rest) := by
  apply splitAtFirst_append
  intro suf hne hsuf hp
  cases suf with
  | nil => exact hne rfl
  | cons x t =>
    rw [List.cons_append, List.cons_append, List.cons_prefix_cons] at hp
    exact h (hp.1 ▸ hsuf.subset (List.mem_cons_self x t))

/-- A separator whose first byte does not occur again in it, and which does
not occur in `pre`, is found after `pre`. -/
theorem splitAtFirst_of_absent (c : UInt8) (s pre rest : GoString) (hc : c ∉ s)
    (hni : ¬ (c :: s) <:+: pre) :
    splitAtFirst (c :: s) (pre ++ ((c :: s) ++ rest)) = some (pre, rest) := by
  apply splitAtFirst_append
  intro suf hne hsuf hp
  by_cases hlen : (c :: s).length ≤ suf.length
  · have hps : c :: s <+: suf :=
      List.prefix_of_prefix_length_le hp (List.prefix_append suf _) hlen
    exact hni (hps.isInfix.trans hsuf.isInfix)
  · have hsp : suf <+: c :: s :=
      List.prefix_of_prefix_length_le (List.prefix_append suf _) hp (by omega)
    obtain ⟨t, ht⟩ := hsp
    rw [← ht, List.prefix_append_right_inj] at hp
    cases suf with
    | nil => exact hne rfl
    | cons x u =>
      cases t with
      | nil =>
        rw [List.append_nil] at ht
        rw [ht] at hlen
        exact hlen (Nat.le_refl _)
      | cons y t' =>
        rw [ht, List.cons_append, List.cons_prefix_cons] at hp
        rw [List.cons_append, List.cons.injEq] at ht
        apply hc
        rw [← ht.2, hp.1]
        exact List.mem_append_right u (List.mem_cons_self c t')

/-- One part read: a header block without carriage return, the empty line, a
content in which the delimiter does not occur, and the delimiter. -/
theorem readParts_step (c : UInt8) (s header content rest : GoString) (fuel : Nat)
    (hh : (13 : UInt8) ∉ header) (hc : c ∉ s) (hni : ¬ (c :: s) <:+: content) :
    readParts (c :: s) (fuel + 1)
        (header ++ (str "\r\n\r\n" ++ (content ++ ((c :: s) ++ rest)))) =
      if (str "--").isPrefixOf rest then some [(header, content)]
      else if (str "\r\n").isPrefixOf rest then
        (readParts (c :: s) fuel (rest.drop 2)).map (fun parts => (header, content) :: parts)
      else none := by
  have hsep : str "\r\n\r\n" = 13 :: [10, 13, 10] := by decide
  rw [readParts, hsep, splitAtFirst_of_head_not_mem 13 [10, 13, 10] header _ hh]
  simp only []
  rw [splitAtFirst_of_absent c s content rest hc hni]

/-- One part read, with another part after it. -/
theorem readParts_step_next (c : UInt8) (s header content next : GoString) (fuel : Nat)
    (hh : (13 : UInt8) ∉ header) (hc : c ∉ s) (hni : ¬ (c :: s) <:+: content) :
    readParts (c :: s) (fuel + 1)
        (header ++ (str "\r\n\r\n" ++ (content ++ ((c :: s) ++ (str "\r\n" ++ next))))) =
      (readParts (c :: s) fuel next).map (fun parts => (header, content) :: parts) := by
  rw [readParts_step c s header content _ fuel hh hc hni]
  have hcrlf : str "\r\n" = [13, 10] := by decide
  have hdash : str "--" = [45, 45] := by decide
  rw [hcrlf, hdash]
  simp [List.isPrefixOf]

/-- The last part read: after its delimiter comes `--`. -/
theorem readParts_step_last (c : UInt8) (s header content tail : GoString) (fuel : Nat)
    (hh : (13 : UInt8) ∉ header) (hc : c ∉ s) (hni : ¬ (c :: s) <:+: content) :
    readParts (c :: s) (fuel + 1)
        (header ++ (str "\r\n\r\n" ++ (content ++ ((c :: s) ++ (str "--" ++ tail))))) =
      some [(header, content)] := by
  rw [readParts_step c s header content _ fuel hh hc hni]
  have hdash : str "--" = [45, 45] := by decide
  rw [hdash]
  simp [List.isPrefixOf]

/-- The bytes of the text form, part by part. -/
theorem linked_form_layout (boundary chat message : GoString) :
    (writeForm boundary
        [{ fieldname := str "chat_id", filename := none, content := chat },
         { fieldname := str "text", filename := none, content := message },
         { fieldname := str "parse_mode", filename := none, content := str "html" }]).body =
      (str "--" ++ boundary ++ str "\r\n") ++
        (str "Content-Disposition: form-data; name=\"chat_id\"" ++ (str "\r\n\r\n" ++
          (chat ++ ((str "\r\n--" ++ boundary) ++ (str "\r\n" ++
        (str "Content-Disposition: form-data; name=\"text\"" ++ (str "\r\n\r\n" ++
          (message ++ ((str "\r\n--" ++ boundary) ++ (str "\r\n" ++
        (str "Content-Disposition: form-data; name=\"parse_mode\"" ++ (str "\r\n\r\n" ++
          (str "html" ++ ((str "\r\n--" ++ boundary) ++ (str "--" ++ str "\r\n"))))))))))))))) := by
  have h1 : str "Content-Disposition: form-data; name=\"chat_id\"" =
      str "Content-Disposition" ++ (str ": " ++ (str "form-data; name=\"" ++
        (escapeQuotes (str "chat_id") ++ str "\""))) := by decide
  have h2 : str "Content-Disposition: form-data; name=\"text\"" =
      str "Content-Disposition" ++ (str ": " ++ (str "form-data; name=\"" ++
        (escapeQuotes (str "text") ++ str "\""))) := by decide
  have h3 : str "Content-Disposition: form-data; name=\"parse_mode\"" =
      str "Content-Disposition" ++ (str ": " ++ (str "form-data; name=\"" ++
        (escapeQuotes (str "parse_mode") ++ str "\""))) := by decide
  have h4 : str "\r\n\r\n" = str "\r\n" ++ str "\r\n" := by decide
  have h5 : str "--\r\n" = str "--" ++ str "\r\n" := by decide
  rw [h1, h2, h3, h4]
  simp only [writeForm, List.foldl, Writer.writePart, Writer.CreateFormField,
    Writer.CreatePart, Writer.Write, Writer.Close, NewWriter, List.append_assoc,
    List.nil_append, if_true, Bool.false_eq_true, if_false, h5]

/-- The delimiter does not occur where the boundary line does not. -/
theorem delim_absent (boundary value : GoString)
    (h : ¬ (str "--" ++ boundary) <:+: value) :
    ¬ ((13 : UInt8) :: ([10, 45, 45] ++ boundary)) <:+: value := by
  intro hd
  apply h
  have hsuf : str "--" ++ boundary <:+ (13 : UInt8) :: ([10, 45, 45] ++ boundary) :=
    ⟨[13, 10], rfl⟩
  exact hsuf.isInfix.trans hd

/-- After the opening boundary line the parts are read, with fuel for at
least three of them. -/
theorem parseMultipart_of_prefix (boundary rest : GoString) :
    ∃ k, parseMultipart boundary ((str "--" ++ boundary ++ str "\r\n") ++ rest) =
      readParts (str "\r\n--" ++ boundary) (k + 3) rest := by
  have hp : (str "--" ++ boundary ++ str "\r\n").isPrefixOf
      ((str "--" ++ boundary ++ str "\r\n") ++ rest) = true := by
    rw [List.isPrefixOf_iff_prefix]
    exact List.prefix_append _ _
  have h2 : (str "--").length = 2 := by decide
  have h3 : (str "\r\n").length = 2 := by decide
  have hlen : ((str "--" ++ boundary ++ str "\r\n") ++ rest).length =
      (boundary.length + rest.length + 1) + 3 := by
    rw [List.length_append, List.length_append, List.length_append, h2, h3]
    omega
  refine ⟨boundary.length + rest.length + 1, ?_⟩
  unfold parseMultipart
  rw [if_pos hp, List.drop_left, hlen]

/-- The text form read back with its boundary: three parts, the header block
and the content of each as written. -/
theorem parseMultipart_linked_form (boundary chat message : GoString)
    (hcr : (13 : UInt8) ∉ boundary)
    (hchat : ¬ (str "--" ++ boundary) <:+: chat)
    (hmessage : ¬ (str "--" ++ boundary) <:+: message) :
    parseMultipart boundary
        (writeForm boundary
          [{ fieldname := str "chat_id", filename := none, content := chat },
           { fieldname := str "text", filename := none, content := message },
           { fieldname := str "parse_mode", filename := none, content := str "html" }]).body =
      some [(str "Content-Disposition: form-data; name=\"chat_id\"", chat),
        (str "Content-Disposition: form-data; name=\"text\"", message),
        (str "Content-Disposition: form-data; name=\"parse_mode\"", str "html")] := by
  have hD : str "\r\n--" ++ boundary = (13 : UInt8) :: ([10, 45, 45] ++ boundary) := rfl
  have hc : (13 : UInt8) ∉ ([10, 45, 45] ++ boundary : GoString) := by
    intro hmem
    rcases List.mem_append.mp hmem with h | h
    · revert h; decide
    · exact hcr h
  have hhtml : ¬ ((13 : UInt8) :: ([10, 45, 45] ++ boundary)) <:+: str "html" := by
    intro hd
    have hmem : (13 : UInt8) ∈ str "html" := hd.subset (List.mem_cons_self _ _)
    revert hmem
    decide
  rw [linked_form_layout]
  obtain ⟨k, hk⟩ := parseMultipart_of_prefix boundary
    (str "Content-Disposition: form-data; name=\"chat_id\"" ++ (str "\r\n\r\n" ++
      (chat ++ ((str "\r\n--" ++ boundary) ++ (str "\r\n" ++
    (str "Content-Disposition: form-data; name=\"text\"" ++ (str "\r\n\r\n" ++
      (message ++ ((str "\r\n--" ++ boundary) ++ (str "\r\n" ++
    (str "Content-Disposition: form-data; name=\"parse_mode\"" ++ (str "\r\n\r\n" ++
      (str "html" ++ ((str "\r\n--" ++ boundary) ++ (str "--" ++ str "\r\n")))))))))))))))
  rw [hk, hD,
    readParts_step_next 13 _ _ chat _ (k + 2) (by decide) hc (delim_absent _ _ hchat),
    readParts_step_next 13 _ _ message _ (k + 1) (by decide) hc (delim_absent _ _ hmessage),
    readParts_step_last 13 _ _ (str "html") _ k (by decide) hc hhtml]
  rfl

/-- The boundary read from the `Content-Type` value that the writer gives. -/
theorem boundaryParam_formDataContentType (boundary : GoString) :
    boundaryParam (str "multipart/form-data; boundary=" ++ boundary) = some boundary := by
  unfold boundaryParam
  have hp : (str "multipart/form-data; boundary=").isPrefixOf
      (str "multipart/form-data; boundary=" ++ boundary) = true := by
    rw [List.isPrefixOf_iff_prefix]
    exact List.prefix_append _ _
  rw [if_pos hp, List.drop_left]

/-- The fields of the three parts of the text form. -/
theorem formFields_linked_form (chat message : GoString) :
    formFields
        [(str "Content-Disposition: form-data; name=\"chat_id\"", chat),
          (str "Content-Disposition: form-data; name=\"text\"", message),
          (str "Content-Disposition: form-data; name=\"parse_mode\"", str "html")] =
      some [(str "chat_id", chat), (str "text", message), (str "parse_mode", str "html")] := by
  have h1 : formName (str "Content-Disposition: form-data; name=\"chat_id\"") =
      some (str "chat_id") := by decide
  have h2 : formName (str "Content-Disposition: form-data; name=\"text\"") =
      some (str "text") := by decide
  have h3 : formName (str "Content-Disposition: form-data; name=\"parse_mode\"") =
      some (str "parse_mode") := by decide
  simp only [formFields, h1, h2, h3]

/-! ### The reader on a file field -/

/-- Bytes of `pre` that cannot start the separator are passed over. -/
theorem splitAtFirst_skip (c : UInt8) (s input : GoString) :
    ∀ pre : GoString, c ∉ pre →
      splitAtFirst (c :: s) (pre ++ input) =
        (splitAtFirst (c :: s) input).map (fun r => (pre ++ r.1, r.2)) := by
  intro pre
  induction pre with
  | nil =>
    intro _
    rw [List.nil_append]
    cases splitAtFirst (c :: s) input <;> rfl
  | cons a pre ih =>
    intro h
    have hac : c ≠ a := fun hca => h (hca ▸ List.mem_cons_self a pre)
    have hnp : (c :: s).isPrefixOf (a :: (pre ++ input)) = false := by
      rw [Bool.eq_false_iff]
      intro hp
      rw [List.isPrefixOf_iff_prefix, List.cons_prefix_cons] at hp
      exact hac hp.1
    rw [List.cons_append, splitAtFirst, hnp,
      ih (fun hm => h (List.mem_cons_of_mem a hm))]
    cases splitAtFirst (c :: s) input <;> rfl

/-- Escaping adds backslashes only. -/
theorem mem_escapeQuotes (b : UInt8) :
    ∀ s : GoString, b ∈ escapeQuotes s → b = 92 ∨ b ∈ s := by
  intro s
  induction s with
  | nil => intro h; simp [escapeQuotes] at h
  | cons a rest ih =>
    intro h
    unfold escapeQuotes at h
    split at h
    · rcases List.mem_cons.mp h with h | h
      · exact Or.inl h
      · rcases List.mem_cons.mp h with h | h
        · exact Or.inr (h ▸ List.mem_cons_self a rest)
        · exact (ih h).imp id (List.mem_cons_of_mem a)
    · rcases List.mem_cons.mp h with h | h
      · exact Or.inr (h ▸ List.mem_cons_self a rest)
      · exact (ih h).imp id (List.mem_cons_of_mem a)

/-- A quoted string written with `escapeQuotes` is read back as it was. -/
theorem readQuoted_escapeQuotes (rest : GoString) :
    ∀ s : GoString, readQuoted (escapeQuotes s ++ 34 :: rest) = some (s, rest) := by
  intro s
  induction s with
  | nil => simp [escapeQuotes, readQuoted]
  | cons a t ih =>
    unfold escapeQuotes
    by_cases h92 : a = 92
    · subst h92
      simp [readQuoted, ih]
    · by_cases h34 : a = 34
      · subst h34
        simp [readQuoted, ih]
      · rw [if_neg (by simp [h92, h34]), List.cons_append]
        rw [readQuoted]
        · simp [ih]
        · exact h34
        · intro _ _ hr
          exact absurd hr h92

/-- The header block of the field `photo` ends at the first empty line, when
the file name holds no carriage return. -/
theorem splitAtFirst_photoHeader (filename input : GoString) (h : (13 : UInt8) ∉ filename) :
    splitAtFirst (str "\r\n\r\n") (photoHeader filename ++ (str "\r\n\r\n" ++ input)) =
      some (photoHeader filename, input) := by
  have hsep : str "\r\n\r\n" = 13 :: [10, 13, 10] := by decide
  have hcrlf : str "\r\n" = [13, 10] := by decide
  have hline : str "Content-Type: application/octet-stream" =
      67 :: str "ontent-Type: application/octet-stream" := by decide
  have hpre : (13 : UInt8) ∉
      str "Content-Disposition: form-data; name=\"" ++ (escapeQuotes (str "photo") ++
        (str "\"; filename=\"" ++ (escapeQuotes filename ++ str "\""))) := by
    intro hm
    rcases List.mem_append.mp hm with hm | hm
    · revert hm; decide
    rcases List.mem_append.mp hm with hm | hm
    · revert hm; decide
    rcases List.mem_append.mp hm with hm | hm
    · revert hm; decide
    rcases List.mem_append.mp hm with hm | hm
    · rcases mem_escapeQuotes 13 filename hm with hm | hm
      · revert hm; decide
      · exact h hm
    · revert hm; decide
  have hlast : (13 : UInt8) ∉ (67 :: str "ontent-Type: application/octet-stream") := by decide
  have hshape : photoHeader filename ++ (str "\r\n\r\n" ++ input) =
      (str "Content-Disposition: form-data; name=\"" ++ (escapeQuotes (str "photo") ++
        (str "\"; filename=\"" ++ (escapeQuotes filename ++ str "\"")))) ++
        (13 :: 10 :: ((67 :: str "ontent-Type: application/octet-stream") ++
          ((13 :: [10, 13, 10]) ++ input))) := by
    unfold photoHeader
    rw [hcrlf, hline, hsep]
    simp only [List.append_assoc, List.cons_append, List.nil_append]
  have hhead : photoHeader filename =
      (str "Content-Disposition: form-data; name=\"" ++ (escapeQuotes (str "photo") ++
        (str "\"; filename=\"" ++ (escapeQuotes filename ++ str "\"")))) ++
        (13 :: 10 :: (67 :: str "ontent-Type: application/octet-stream")) := by
    unfold photoHeader
    rw [hcrlf, hline]
    simp only [List.append_assoc, List.cons_append, List.nil_append]
  rw [hshape, hsep, splitAtFirst_skip 13 [10, 13, 10] _ _ hpre, splitAtFirst, splitAtFirst,
    splitAtFirst_of_head_not_mem 13 [10, 13, 10] _ input hlast, hhead]
  simp [List.isPrefixOf]

/-- The field name and the file name read from the header block of the field
`photo`. -/
theorem formDisposition_photoHeader (filename : GoString) :
    formDisposition (photoHeader filename) = some (str "photo", some filename) := by
  have hq : str "\"; filename=\"" = 34 :: str "; filename=\"" := by decide
  have hq2 : str "\"" ++ (str "\r\n" ++ str "Content-Type: application/octet-stream") =
      34 :: (str "\r\n" ++ str "Content-Type: application/octet-stream") := by decide
  have hp : (str "Content-Disposition: form-data; name=\"").isPrefixOf (photoHeader filename)
      = true := by
    rw [List.isPrefixOf_iff_prefix]
    exact List.prefix_append _ _
  have hp2 : ∀ t : GoString, (str "; filename=\"").isPrefixOf (str "; filename=\"" ++ t)
      = true := by
    intro t
    rw [List.isPrefixOf_iff_prefix]
    exact List.prefix_append _ _
  unfold formDisposition
  rw [if_pos hp]
  unfold photoHeader
  rw [List.drop_left, hq, List.cons_append, readQuoted_escapeQuotes]
  simp only []
  rw [if_pos (hp2 _), List.drop_left, hq2, readQuoted_escapeQuotes]

/-- The last part read, for a header block that ends at the first empty
line. -/
theorem readParts_last_of_split (c : UInt8) (s header content tail : GoString) (fuel : Nat)
    (hsplit : splitAtFirst (str "\r\n\r\n")
        (header ++ (str "\r\n\r\n" ++ (content ++ ((c :: s) ++ (str "--" ++ tail))))) =
      some (header, content ++ ((c :: s) ++ (str "--" ++ tail))))
    (hc : c ∉ s) (hni : ¬ (c :: s) <:+: content) :
    readParts (c :: s) (fuel + 1)
        (header ++ (str "\r\n\r\n" ++ (content ++ ((c :: s) ++ (str "--" ++ tail))))) =
      some [(header, content)] := by
  rw [readParts, hsplit]
  simp only []
  rw [splitAtFirst_of_absent c s content _ hc hni]
  have hdash : str "--" = [45, 45] := by decide
  rw [hdash]
  simp [List.isPrefixOf]

/-- The bytes of the image form, part by part. -/
theorem inline_form_layout (boundary chat caption filename image : GoString) :
    (writeForm boundary
        [{ fieldname := str "chat_id", filename := none, content := chat },
         { fieldname := str "caption", filename := none, content := caption },
         { fieldname := str "photo", filename := some filename, content := image }]).body =
      (str "--" ++ boundary ++ str "\r\n") ++
        (str "Content-Disposition: form-data; name=\"chat_id\"" ++ (str "\r\n\r\n" ++
          (chat ++ ((str "\r\n--" ++ boundary) ++ (str "\r\n" ++
        (str "Content-Disposition: form-data; name=\"caption\"" ++ (str "\r\n\r\n" ++
          (caption ++ ((str "\r\n--" ++ boundary) ++ (str "\r\n" ++
        (photoHeader filename ++ (str "\r\n\r\n" ++
          (image ++ ((str "\r\n--" ++ boundary) ++ (str "--" ++ str "\r\n"))))))))))))))) := by
  have h1 : str "Content-Disposition: form-data; name=\"chat_id\"" =
      str "Content-Disposition" ++ (str ": " ++ (str "form-data; name=\"" ++
        (escapeQuotes (str "chat_id") ++ str "\""))) := by decide
  have h2 : str "Content-Disposition: form-data; name=\"caption\"" =
      str "Content-Disposition" ++ (str ": " ++ (str "form-data; name=\"" ++
        (escapeQuotes (str "caption") ++ str "\""))) := by decide
  have h3 : str "Content-Disposition: form-data; name=\"" =
      str "Content-Disposition" ++ (str ": " ++ str "form-data; name=\"") := by decide
  have h4 : str "\r\n\r\n" = str "\r\n" ++ str "\r\n" := by decide
  have h5 : str "--\r\n" = str "--" ++ str "\r\n" := by decide
  have h6 : str "Content-Type: application/octet-stream" =
      str "Content-Type" ++ (str ": " ++ str "application/octet-stream") := by decide
  unfold photoHeader
  rw [h1, h2, h3, h4, h6]
  simp only [writeForm, List.foldl, Writer.writePart, Writer.CreateFormField,
    Writer.CreateFormFile, Writer.CreatePart, Writer.Write, Writer.Close, NewWriter,
    List.append_assoc, List.nil_append, if_true, Bool.false_eq_true, if_false, h5]

/-- The image form read back with its boundary: three parts, the header block
and the content of each as written. -/
theorem parseMultipart_inline_form (boundary chat caption filename image : GoString)
    (hcr : (13 : UInt8) ∉ boundary) (hfile : (13 : UInt8) ∉ filename)
    (hchat : ¬ (str "--" ++ boundary) <:+: chat)
    (hcaption : ¬ (str "--" ++ boundary) <:+: caption)
    (himage : ¬ (str "--" ++ boundary) <:+: image) :
    parseMultipart boundary
        (writeForm boundary
          [{ fieldname := str "chat_id", filename := none, content := chat },
           { fieldname := str "caption", filename := none, content := caption },
           { fieldname := str "photo", filename := some filename, content := image }]).body =
      some [(str "Content-Disposition: form-data; name=\"chat_id\"", chat),
        (str "Content-Disposition: form-data; name=\"caption\"", caption),
        (photoHeader filename, image)] := by
  have hD : str "\r\n--" ++ boundary = (13 : UInt8) :: ([10, 45, 45] ++ boundary) := rfl
  have hc : (13 : UInt8) ∉ ([10, 45, 45] ++ boundary : GoString) := by
    intro hmem
    rcases List.mem_append.mp hmem with h | h
    · revert h; decide
    · exact hcr h
  rw [inline_form_layout]
  obtain ⟨k, hk⟩ := parseMultipart_of_prefix boundary
    (str "Content-Disposition: form-data; name=\"chat_id\"" ++ (str "\r\n\r\n" ++
      (chat ++ ((str "\r\n--" ++ boundary) ++ (str "\r\n" ++
    (str "Content-Disposition: form-data; name=\"caption\"" ++ (str "\r\n\r\n" ++
      (caption ++ ((str "\r\n--" ++ boundary) ++ (str "\r\n" ++
    (photoHeader filename ++ (str "\r\n\r\n" ++
      (image ++ ((str "\r\n--" ++ boundary) ++ (str "--" ++ str "\r\n")))))))))))))))
  rw [hk, hD,
    readParts_step_next 13 _ _ chat _ (k + 2) (by decide) hc (delim_absent _ _ hchat),
    readParts_step_next 13 _ _ caption _ (k + 1) (by decide) hc (delim_absent _ _ hcaption),
    readParts_last_of_split 13 _ _ image _ k (splitAtFirst_photoHeader filename _ hfile) hc
      (delim_absent _ _ himage)]
  rfl

/-- The fields of the three parts of the text form, with no file name. -/
theorem formParts_linked_form (chat message : GoString) :
    formParts
        [(str "Content-Disposition: form-data; name=\"chat_id\"", chat),
          (str "Content-Disposition: form-data; name=\"text\"", message),
          (str "Content-Disposition: form-data; name=\"parse_mode\"", str "html")] =
      some [{ fieldname := str "chat_id", filename := none, content := chat },
        { fieldname := str "text", filename := none, content := message },
        { fieldname := str "parse_mode", filename := none, content := str "html" }] := by
  have h1 : formDisposition (str "Content-Disposition: form-data; name=\"chat_id\"") =
      some (str "chat_id", none) := by decide
  have h2 : formDisposition (str "Content-Disposition: form-data; name=\"text\"") =
      some (str "text", none) := by decide
  have h3 : formDisposition (str "Content-Disposition: form-data; name=\"parse_mode\"") =
      some (str "parse_mode", none) := by decide
  simp only [formParts, h1, h2, h3]

/-- The fields of the three parts of the image form: two plain fields and the
file field `photo`. -/
theorem formParts_inline_form (chat caption filename image : GoString) :
    formParts
        [(str "Content-Disposition: form-data; name=\"chat_id\"", chat),
          (str "Content-Disposition: form-data; name=\"caption\"", caption),
          (photoHeader filename, image)] =
      some [{ fieldname := str "chat_id", filename := none, content := chat },
        { fieldname := str "caption", filename := none, content := caption },
        { fieldname := str "photo", filename := some filename, content := image }] := by
  have h1 : formDisposition (str "Content-Disposition: form-data; name=\"chat_id\"") =
      some (str "chat_id", none) := by decide
  have h2 : formDisposition (str "Content-Disposition: form-data; name=\"caption\"") =
      some (str "caption", none) := by decide
  simp only [formParts, h1, h2, formDisposition_photoHeader]

/-- The header list of a request holds its content type. -/
theorem lookup_contentType (contentType : GoString) :
    List.lookup (str "Content-Type") [(str "Content-Type", contentType)] =
      some contentType := by
  simp [List.lookup]

/-! ## Claims -/

/-- C1: for every evaluation context, rule URL and metrics block, the caption
returned by `generateImageCaption` has at most `captionLengthLimit` (200)
bytes, the length that Go's `len` measures. -/
theorem generateImageCaption_length_le (evalContext : EvalContext)
    (ruleUrl metrics : GoString) :
    (generateImageCaption evalContext ruleUrl metrics).length ≤ captionLengthLimit ∧
      captionLengthLimit = 200 := by
  refine ⟨?_, rfl⟩
  rw [generateImageCaption_eq]
  split
  · exact appendIfPossible_length_le _ _ _ (captionWithUrl_length_le evalContext ruleUrl)
  · exact captionWithUrl_length_le evalContext ruleUrl

/-- C2: when the base string has at least 200 bytes, the caption is exactly
its first 200 bytes, whatever the rule URL and the metrics block: it has
length 200 and neither the URL section nor the Metrics section is appended. -/
theorem generateImageCaption_base_ge_limit (evalContext : EvalContext)
    (ruleUrl metrics : GoString)
    (h : 200 ≤ (evalContext.GetNotificationTitle ++ str "\nMessage: "
      ++ evalContext.Rule.Message ++ str "\n").length) :
    generateImageCaption evalContext ruleUrl metrics =
        (evalContext.GetNotificationTitle ++ str "\nMessage: "
          ++ evalContext.Rule.Message ++ str "\n").take 200 ∧
      (generateImageCaption evalContext ruleUrl metrics).length = 200 := by
  have hres := generateImageCaption_of_limit_le evalContext ruleUrl metrics h
  refine ⟨hres, ?_⟩
  rw [hres, List.length_take]
  exact Nat.min_eq_left h

set_option maxRecDepth 100000 in
/-- C2 at a base string of 205 bytes: the caption is its first 200 bytes, the
title followed by the six bytes of `"\nMessa"`. -/
theorem generateImageCaption_base_ge_limit_witness :
    (longTitleContext.GetNotificationTitle ++ str "\nMessage: "
        ++ longTitleContext.Rule.Message ++ str "\n").length = 205 ∧
      generateImageCaption longTitleContext (str "http://g/d/1") (str "\ncpu: 95%") =
        List.replicate 194 97 ++ str "\nMessa" ∧
      (generateImageCaption longTitleContext (str "http://g/d/1") (str "\ncpu: 95%")).length
        = 200 := by
  have h := generateImageCaption_base_ge_limit longTitleContext (str "http://g/d/1")
    (str "\ncpu: 95%") (by decide)
  refine ⟨by decide, ?_, h.2⟩
  rw [h.1]
  decide

/-- C6: when the base string `B` has at most 200 bytes, the caption is
`B ++ U ++ M`: `U` is the line `"URL: {u}\n"` if `u` is non-empty and
`len(B)` plus the length of that line is at most 200, and empty otherwise;
`M` is `"\nMetrics:{k}"` if `k` is non-empty and `len(B ++ U)` plus the length
of that section is at most 200, and empty otherwise. -/
theorem generateImageCaption_sections (evalContext : EvalContext) (u k : GoString)
    (h : (evalContext.GetNotificationTitle ++ str "\nMessage: "
      ++ evalContext.Rule.Message ++ str "\n").length ≤ 200) :
    generateImageCaption evalContext u k =
      (evalContext.GetNotificationTitle ++ str "\nMessage: "
          ++ evalContext.Rule.Message ++ str "\n")
        ++ (if u ≠ [] ∧
              (evalContext.GetNotificationTitle ++ str "\nMessage: "
                ++ evalContext.Rule.Message ++ str "\n").length
                + (str "URL: " ++ u ++ str "\n").length ≤ 200
            then str "URL: " ++ u ++ str "\n" else [])
        ++ (if k ≠ [] ∧
              ((evalContext.GetNotificationTitle ++ str "\nMessage: "
                ++ evalContext.Rule.Message ++ str "\n")
                ++ (if u ≠ [] ∧
                      (evalContext.GetNotificationTitle ++ str "\nMessage: "
                        ++ evalContext.Rule.Message ++ str "\n").length
                        + (str "URL: " ++ u ++ str "\n").length ≤ 200
                    then str "URL: " ++ u ++ str "\n" else [])).length
                + (str "\nMetrics:" ++ k).length ≤ 200
            then str "\nMetrics:" ++ k else []) := by
  exact generateImageCaption_of_le_limit evalContext u k h

/-- C6 on the worked example with a short URL and one metric line: both
sections fit and are appended in the order URL, Metrics. -/
theorem generateImageCaption_sections_witness :
    generateImageCaption cpuContext (str "http://g/d/1") (str "\ncpu: 95%") =
      str "High CPU\nMessage: CPU above 90%\nURL: http://g/d/1\n\nMetrics:\ncpu: 95%" :=
  (generateImageCaption_sections cpuContext (str "http://g/d/1") (str "\ncpu: 95%")
    (by decide)).trans (by decide)

/-- C3: `Notify` calls `buildInlineMessage` (whose first action is `os.Open`)
exactly when `ImagePublicUrl` is empty and `UploadImage` is true; in every
other case its only call is the dispatch of the link-style request. -/
theorem Notify_inline_iff (env : Env) (this : TelegramNotifier) (evalContext : EvalContext) :
    ((∃ path, Event.osOpen path ∈ (Notify env this evalContext).2) ↔
        (evalContext.ImagePublicUrl = [] ∧ this.UploadImage = true)) ∧
      (Notify env this evalContext).2 =
        (if evalContext.ImagePublicUrl = [] ∧ this.UploadImage = true then
          (buildInlineMessage env this evalContext).2
            ++ [Event.dispatch (buildMessage env this evalContext true).1]
        else [Event.dispatch (buildLinkedMessage env this evalContext)]) := by
  have htrace : (Notify env this evalContext).2 =
      (if evalContext.ImagePublicUrl = [] ∧ this.UploadImage = true then
        (buildInlineMessage env this evalContext).2
          ++ [Event.dispatch (buildMessage env this evalContext true).1]
      else [Event.dispatch (buildLinkedMessage env this evalContext)]) := by
    unfold Notify
    by_cases hc : evalContext.ImagePublicUrl = [] ∧ this.UploadImage = true
    · simp only [if_pos hc]
      have hcalls : (buildMessage env this evalContext true).2 =
          (buildInlineMessage env this evalContext).2 := by
        unfold buildMessage
        simp only [if_true]
        split <;> simp_all
      cases hd : env.dispatch (buildMessage env this evalContext true).1 <;>
        simp [hd, hcalls]
    · simp only [if_neg hc]
      cases hd : env.dispatch (buildMessage env this evalContext false).1 <;>
        simp [hd, buildMessage]
  refine ⟨?_, htrace⟩
  rw [htrace]
  by_cases hc : evalContext.ImagePublicUrl = [] ∧ this.UploadImage = true
  · rw [if_pos hc]
    refine ⟨fun _ => hc, fun _ => ⟨evalContext.ImageOnDiskPath, ?_⟩⟩
    apply List.mem_append_left
    unfold buildInlineMessage
    split <;> simp
  · rw [if_neg hc]
    refine ⟨?_, fun h => absurd h hc⟩
    rintro ⟨path, hmem⟩
    simp at hmem

/-- C4: when the file at `ImageOnDiskPath` cannot be opened, `buildMessage`
with `sendImageInline = true` returns exactly the request of
`buildLinkedMessage` (the `sendMessage` endpoint), and what `Notify` returns
is the answer of the dispatcher for that request: the open error does not
reach the caller. -/
theorem buildMessage_open_fails (env : Env) (this : TelegramNotifier)
    (evalContext : EvalContext) (err : GoError)
    (hopen : env.osOpen evalContext.ImageOnDiskPath = .error err) :
    (buildMessage env this evalContext true).1 = buildLinkedMessage env this evalContext ∧
      (buildMessage env this evalContext true).1.Url =
        str "https://api.telegram.org/bot" ++ this.BotToken ++ str "/sendMessage" ∧
      (evalContext.ImagePublicUrl = [] → this.UploadImage = true →
        (Notify env this evalContext).1 =
          env.dispatch (buildLinkedMessage env this evalContext)) := by
  have hinline : buildInlineMessage env this evalContext =
      (.error err, [Event.osOpen evalContext.ImageOnDiskPath]) := by
    unfold buildInlineMessage
    rw [hopen]
  have hbuild : buildMessage env this evalContext true =
      (buildLinkedMessage env this evalContext, [Event.osOpen evalContext.ImageOnDiskPath]) := by
    unfold buildMessage
    rw [hinline]
    rfl
  refine ⟨by rw [hbuild], ?_, ?_⟩
  · rw [hbuild]
    exact telegramApiUrl_sendMessage this.BotToken
  · intro himg hup
    unfold Notify
    rw [if_pos ⟨himg, hup⟩, hbuild]
    cases hd : env.dispatch (buildLinkedMessage env this evalContext) <;> simp [hd]

/-- C4 on the worked example, in a world where no file can be opened. -/
theorem buildMessage_open_fails_witness :
    (buildMessage noFileEnv uploadNotifier cpuContext true).1 =
        buildLinkedMessage noFileEnv uploadNotifier cpuContext ∧
      (buildMessage noFileEnv uploadNotifier cpuContext true).1.Url =
        str "https://api.telegram.org/bot" ++ uploadNotifier.BotToken ++ str "/sendMessage" ∧
      (Notify noFileEnv uploadNotifier cpuContext).1 = none :=
  have h := buildMessage_open_fails noFileEnv uploadNotifier cpuContext
    { msg := "open: no such file or directory" } rfl
  ⟨h.1, h.2.1, (h.2.2 rfl rfl).trans rfl⟩

/-- C7: the text that `buildLinkedMessage` writes into the `text` field is
`H ++ U ++ I ++ M`, uncut at any length: `H` is the three-line header (with
the value the code puts on the State line), `U` the URL line exactly when
`GetRuleUrl` returns no error, `I` the Image line exactly when
`ImagePublicUrl` is non-empty, `M` the Metrics section exactly when the
metrics block is non-empty. On the worked example the text is the header
followed by the Metrics section with its two lines. -/
theorem buildLinkedMessage_text (env : Env) (this : TelegramNotifier)
    (evalContext : EvalContext) :
    linkedMessage evalContext =
        (str "<b>" ++ evalContext.GetNotificationTitle ++ str "</b>\nState: "
          ++ evalContext.Rule.Name ++ str "\nMessage: " ++ evalContext.Rule.Message ++ str "\n")
        ++ (if evalContext.GetRuleUrl.2 = none then
              str "URL: " ++ evalContext.GetRuleUrl.1 ++ str "\n" else [])
        ++ (if evalContext.ImagePublicUrl ≠ [] then
              str "Image: " ++ evalContext.ImagePublicUrl ++ str "\n" else [])
        ++ (if linkedMetrics evalContext ≠ [] then
              str "\n<i>Metrics:</i>" ++ linkedMetrics evalContext else []) ∧
      (buildLinkedMessage env this evalContext).Body =
        (((((((NewWriter env.randomBoundary).CreateFormField (str "chat_id")).Write
          this.ChatID).CreateFormField (str "text")).Write
          (linkedMessage evalContext)).CreateFormField (str "parse_mode")).Write
          (str "html")).Close.body ∧
      linkedMessage cpuContext =
        str "<b>High CPU</b>\nState: " ++ cpuContext.Rule.Name
          ++ str "\nMessage: CPU above 90%\n\n<i>Metrics:</i>\ncpu: 95%\ncpu: 96%" := by
  refine ⟨?_, rfl, by decide⟩
  unfold linkedMessage
  rcases hurl : evalContext.GetRuleUrl with ⟨ruleUrl, err⟩
  simp only []
  by_cases he : err = none <;> by_cases hi : evalContext.ImagePublicUrl = [] <;>
    by_cases hm : linkedMetrics evalContext = [] <;> simp [he, hi, hm]

/-- C5, the code at six matches: both enumeration loops render all six, the
match at index 5 included, because the test `index > fieldLimitCount` comes
after the rendering has been appended. -/
theorem metrics_six_matches :
    sixMatchContext.EvalMatches.length = 6 ∧
      linkedMetrics sixMatchContext = str "\nm0: 0\nm1: 1\nm2: 2\nm3: 3\nm4: 4\nm5: 5" ∧
      inlineMetrics sixMatchContext = str "\nm0: 0\nm1: 1\nm2: 2\nm3: 3\nm4: 4\nm5: 5" := by
  decide

set_option maxRecDepth 100000 in
/-- C8, the code at a path that opens and cannot be read: `buildInlineMessage`
returns no error but a `sendPhoto` request whose `photo` part is empty, and
`buildMessage` hands it on instead of falling back to the link-style
request. -/
theorem buildInlineMessage_read_fails :
    dirEnv.osOpen dirContext.ImageOnDiskPath =
        .ok { content := [], readErr := some { msg := "read: is a directory" } } ∧
      (buildInlineMessage dirEnv uploadNotifier dirContext).1 =
        .ok
          { Url := str "https://api.telegram.org/bot123:abc/sendPhoto"
            Body := str ("--b0\r\nContent-Disposition: form-data; name=\"chat_id\"\r\n\r\n-42"
              ++ "\r\n--b0\r\nContent-Disposition: form-data; name=\"caption\"\r\n\r\n"
              ++ "High CPU\nMessage: CPU above 90%\n\nMetrics:\ncpu: 95%\ncpu: 96%"
              ++ "\r\n--b0\r\nContent-Disposition: form-data; name=\"photo\"; "
              ++ "filename=\"/tmp\"\r\nContent-Type: application/octet-stream\r\n\r\n"
              ++ "\r\n--b0--\r\n")
            HttpMethod := str "POST"
            HttpHeader := [(str "Content-Type", str "multipart/form-data; boundary=b0")] } ∧
      (buildMessage dirEnv uploadNotifier dirContext true).1 ≠
        buildLinkedMessage dirEnv uploadNotifier dirContext := by
  decide

/-- C10, the code on the worked example: the State line carries the rule's
name `cpu-rule`, not its state `alerting`, and the text does not change when
the state does. -/
theorem linkedMessage_state_line :
    cpuContext.Rule.Name = str "cpu-rule" ∧ cpuContext.Rule.State = str "alerting" ∧
      linkedMessage cpuContext =
        str ("<b>High CPU</b>\nState: cpu-rule\nMessage: CPU above 90%\n"
          ++ "\n<i>Metrics:</i>\ncpu: 95%\ncpu: 96%") ∧
      linkedMessage { cpuContext with Rule := { cpuContext.Rule with State := str "ok" } } =
        linkedMessage cpuContext := by
  decide

set_option maxRecDepth 100000 in
/-- C9 fails on a title of one hundred letters `é`: the base string has 111
characters, at most 200, yet the caption is cut to the 200 bytes of the title
and does not start with the whole base string. -/
theorem generateImageCaption_accent_cut :
    accentContext.GetNotificationTitle = str (String.mk (List.replicate 100 'é')) ∧
      accentContext.Rule.Message = str "" ∧
      (String.mk (List.replicate 100 'é') ++ "\nMessage: " ++ "" ++ "\n").length = 111 ∧
      generateImageCaption accentContext [] [] = str (String.mk (List.replicate 100 'é')) ∧
      ¬ (str (String.mk (List.replicate 100 'é') ++ "\nMessage: " ++ "" ++ "\n")
          <+: generateImageCaption accentContext [] []) := by
  refine ⟨rfl, rfl, by decide, by decide, ?_⟩
  intro hpre
  have hlen := hpre.length_le
  revert hlen
  decide

/-- C9 as amended: when title and rule message are text of one byte per
character (code points up to U+007F), a base string of more than 200
characters yields exactly its first 200 characters, and a base string of at
most 200 characters is never cut: the caption starts with all of it. -/
theorem generateImageCaption_ascii (evalContext : EvalContext) (title message : String)
    (ruleUrl metrics : GoString)
    (htitle : evalContext.GetNotificationTitle = str title)
    (hmessage : evalContext.Rule.Message = str message)
    (hta : ∀ c ∈ title.data, c.val ≤ 127) (hma : ∀ c ∈ message.data, c.val ≤ 127) :
    (200 < (title ++ "\nMessage: " ++ message ++ "\n").length →
        generateImageCaption evalContext ruleUrl metrics =
          str (String.mk ((title ++ "\nMessage: " ++ message ++ "\n").data.take 200)) ∧
        (String.mk ((title ++ "\nMessage: " ++ message ++ "\n").data.take 200)).length = 200) ∧
      ((title ++ "\nMessage: " ++ message ++ "\n").length ≤ 200 →
        str (title ++ "\nMessage: " ++ message ++ "\n")
          <+: generateImageCaption evalContext ruleUrl metrics) := by
  have hbase : captionBase evalContext = str (title ++ "\nMessage: " ++ message ++ "\n") := by
    unfold captionBase
    rw [htitle, hmessage, str_append, str_append, str_append]
  have hascii : ∀ c ∈ (title ++ "\nMessage: " ++ message ++ "\n").data, c.val ≤ 127 := by
    intro c hc
    simp only [String.data_append, List.mem_append] at hc
    rcases hc with ((hc | hc) | hc) | hc
    · exact hta c hc
    · revert c; decide
    · exact hma c hc
    · revert c; decide
  have hlen : (captionBase evalContext).length =
      (title ++ "\nMessage: " ++ message ++ "\n").length := by
    rw [hbase]
    exact flatMap_length_of_ascii _ hascii
  constructor
  · intro hlong
    constructor
    · rw [generateImageCaption_of_limit_le evalContext ruleUrl metrics (by omega), hbase]
      exact flatMap_take_of_ascii _ hascii 200
    · show ((title ++ "\nMessage: " ++ message ++ "\n").data.take 200).length = 200
      rw [List.length_take]
      exact Nat.min_eq_left (Nat.le_of_lt hlong)
  · intro hshort
    rw [← hbase]
    exact captionBase_prefix evalContext ruleUrl metrics (by omega)

set_option maxRecDepth 100000 in
/-- C9 as amended, on a title of 194 letters `a`: the caption is the first
200 characters of the base string, and the worked example is not cut. -/
theorem generateImageCaption_ascii_witness :
    generateImageCaption longTitleContext (str "http://g/d/1") (str "\ncpu: 95%") =
        str (String.mk (List.replicate 194 'a' ++ "\nMessa".data)) ∧
      str "High CPU\nMessage: CPU above 90%\n" <+: generateImageCaption cpuContext [] [] :=
  ⟨((generateImageCaption_ascii longTitleContext (String.mk (List.replicate 194 'a')) ""
      (str "http://g/d/1") (str "\ncpu: 95%") (by decide) (by decide) (by decide)
      (by decide)).1 (by decide)).1.trans (by decide),
   (generateImageCaption_ascii cpuContext "High CPU" "CPU above 90%" [] []
      (by decide) (by decide) (by decide) (by decide)).2 (by decide)⟩

/-- C12: the text request goes to
`https://api.telegram.org/bot{token}/sendMessage` and a successful image
request to `https://api.telegram.org/bot{token}/sendPhoto`, the token
inserted as it is; both use the method `POST` and carry the single header
`Content-Type: multipart/form-data; boundary={b}`, with `b` the boundary whose
lines open and close the body. -/
theorem request_url_method_header (env : Env) (this : TelegramNotifier)
    (evalContext : EvalContext) :
    ((buildLinkedMessage env this evalContext).Url =
          str "https://api.telegram.org/bot" ++ this.BotToken ++ str "/sendMessage" ∧
        (buildLinkedMessage env this evalContext).HttpMethod = str "POST" ∧
        (buildLinkedMessage env this evalContext).HttpHeader =
          [(str "Content-Type", str "multipart/form-data; boundary=" ++ env.randomBoundary)] ∧
        str "--" ++ env.randomBoundary ++ str "\r\n"
          <+: (buildLinkedMessage env this evalContext).Body ∧
        str "\r\n--" ++ env.randomBoundary ++ str "--\r\n"
          <:+ (buildLinkedMessage env this evalContext).Body) ∧
      (∀ cmd, (buildInlineMessage env this evalContext).1 = .ok cmd →
        cmd.Url = str "https://api.telegram.org/bot" ++ this.BotToken ++ str "/sendPhoto" ∧
          cmd.HttpMethod = str "POST" ∧
          cmd.HttpHeader =
            [(str "Content-Type", str "multipart/form-data; boundary=" ++ env.randomBoundary)] ∧
          str "--" ++ env.randomBoundary ++ str "\r\n" <+: cmd.Body ∧
          str "\r\n--" ++ env.randomBoundary ++ str "--\r\n" <:+ cmd.Body) := by
  constructor
  · rw [buildLinkedMessage_eq]
    exact ⟨telegramApiUrl_sendMessage this.BotToken, rfl, rfl,
      writeForm_body_prefix _ _ _, writeForm_body_suffix _ _⟩
  · intro cmd hcmd
    obtain ⟨imageFile, _, heq⟩ := buildInlineMessage_ok env this evalContext cmd hcmd
    rw [heq]
    exact ⟨telegramApiUrl_sendPhoto this.BotToken, rfl, rfl,
      writeForm_body_prefix _ _ _, writeForm_body_suffix _ _⟩

/-- C13: `NewTelegramNotifier` returns a validation error exactly when the
settings are nil or the bot token or the chat identifier is missing or
empty; otherwise it returns the notifier holding the token, the chat
identifier and the upload-image flag of the settings (`false` when the flag
is absent). What `Notify` returns on a notifier so made is the answer of the
dispatcher, never a validation error. -/
theorem NewTelegramNotifier_validation (model : AlertNotification) :
    ((∃ e, NewTelegramNotifier model = .error e) ↔
        (model.Settings = none ∨
          ∃ s, model.Settings = some s ∧
            (s.bottoken = none ∨ s.bottoken = some [] ∨
              s.chatid = none ∨ s.chatid = some []))) ∧
      (∀ s t c, model.Settings = some s → s.bottoken = some t → t ≠ [] →
        s.chatid = some c → c ≠ [] →
        NewTelegramNotifier model =
          .ok { BotToken := t, ChatID := c, UploadImage := s.uploadImage.getD false }) ∧
      (∀ n env evalContext, NewTelegramNotifier model = .ok n →
        ∃ cmd, (Notify env n evalContext).1 = env.dispatch cmd) := by
  refine ⟨?_, ?_, ?_⟩
  · unfold NewTelegramNotifier
    cases hs : model.Settings with
    | none => simp
    | some s =>
      rcases s with ⟨bottoken, chatid, uploadImage⟩
      cases bottoken with
      | none => simp [MustString]
      | some t =>
        cases chatid with
        | none =>
          by_cases ht : t = [] <;> simp [MustString, ht]
        | some c =>
          by_cases ht : t = [] <;> by_cases hc : c = [] <;> simp [MustString, ht, hc]
  · intro s t c hs ht hne hc hce
    unfold NewTelegramNotifier
    rw [hs]
    simp [MustString, MustBool, ht, hc, hne, hce]
  · intro n env evalContext _
    exact ⟨_, by rw [Notify_eq]⟩

/-- C13 on a model with token `123:abc`, chat identifier `-42` and no
upload-image flag. -/
theorem NewTelegramNotifier_validation_witness :
    NewTelegramNotifier sampleModel =
      .ok { BotToken := str "123:abc", ChatID := str "-42", UploadImage := false } :=
  (NewTelegramNotifier_validation sampleModel).2.1
    { bottoken := some (str "123:abc"), chatid := some (str "-42"), uploadImage := none }
    (str "123:abc") (str "-42") rfl rfl (by decide) rfl (by decide)

/-- C14: `Notify` makes exactly one dispatch, and what it returns is the
answer of the dispatcher to that one request: nil exactly when the dispatch
succeeded, and the error of the dispatch itself when it failed. -/
theorem Notify_dispatch_once (env : Env) (this : TelegramNotifier)
    (evalContext : EvalContext) :
    ∃ cmd, (Notify env this evalContext).2.filter Event.isDispatch = [Event.dispatch cmd] ∧
      (Notify env this evalContext).1 = env.dispatch cmd ∧
      ((Notify env this evalContext).1 = none ↔ env.dispatch cmd = none) ∧
      (∀ e, env.dispatch cmd = some e → (Notify env this evalContext).1 = some e) := by
  refine ⟨(buildMessage env this evalContext
    (decide (evalContext.ImagePublicUrl = [] ∧ this.UploadImage = true))).1, ?_, ?_, ?_, ?_⟩
  · rw [Notify_eq, List.filter_append, buildMessage_no_dispatch]
    rfl
  · rw [Notify_eq]
  · rw [Notify_eq]
  · intro e he
    rw [Notify_eq]
    exact he

/-- C16: for at most 5 matches the metrics block of `buildLinkedMessage` and
the one of `buildInlineMessage` are the same string, the concatenation in
list order of `"\n{Metric}: {Value}"` over all matches; it is empty
exactly when there are no matches. -/
theorem metrics_blocks_agree (evalContext : EvalContext)
    (h : evalContext.EvalMatches.length ≤ 5) :
    linkedMetrics evalContext = inlineMetrics evalContext ∧
      linkedMetrics evalContext =
        evalContext.EvalMatches.flatMap
          (fun evt => str "\n" ++ evt.Metric ++ str ": " ++ evt.Value) ∧
      (linkedMetrics evalContext = [] ↔ evalContext.EvalMatches = []) := by
  obtain ⟨hl, hi⟩ := metrics_eq_take_six evalContext
  have htake : evalContext.EvalMatches.take 6 = evalContext.EvalMatches :=
    List.take_of_length_le (by omega)
  rw [htake] at hl hi
  refine ⟨hl.trans hi.symm, hl, ?_⟩
  rw [hl]
  exact flatMap_renderMatch_eq_nil _

/-- C16 on the worked example, which has two matches. -/
theorem metrics_blocks_agree_witness :
    linkedMetrics cpuContext = inlineMetrics cpuContext ∧
      linkedMetrics cpuContext = str "\ncpu: 95%\ncpu: 96%" :=
  have h := metrics_blocks_agree cpuContext (by decide)
  ⟨h.1, h.2.1.trans (by decide)⟩

set_option maxRecDepth 100000 in
/-- C17: on a base string of 180 bytes, a URL line of 26 bytes does not fit
and is left out, and the Metrics section of 14 bytes that follows still fits
and is appended. -/
theorem generateImageCaption_skips_url_keeps_metrics :
    ∃ (evalContext : EvalContext) (ruleUrl metrics : GoString),
      ruleUrl ≠ [] ∧ metrics ≠ [] ∧
        (evalContext.GetNotificationTitle ++ str "\nMessage: "
          ++ evalContext.Rule.Message ++ str "\n").length = 180 ∧
        generateImageCaption evalContext ruleUrl metrics =
          (evalContext.GetNotificationTitle ++ str "\nMessage: "
            ++ evalContext.Rule.Message ++ str "\n") ++ (str "\nMetrics:" ++ metrics) :=
  ⟨roomForMetricsContext, str "http://grafana/d/1/a", str "\nc: 1",
    by decide, by decide, by decide, by decide⟩

/-- C18: when `Notify` attempts inline delivery (`ImagePublicUrl` empty,
`UploadImage` true) and `buildInlineMessage` fails, the request dispatched is
the link-style one and its text is the header, the optional URL line and the
optional Metrics section: there is no Image line. -/
theorem Notify_fallback_text (env : Env) (this : TelegramNotifier)
    (evalContext : EvalContext) (err : GoError)
    (himg : evalContext.ImagePublicUrl = []) (hup : this.UploadImage = true)
    (hfail : (buildInlineMessage env this evalContext).1 = .error err) :
    (Notify env this evalContext).2 =
        [Event.osOpen evalContext.ImageOnDiskPath,
          Event.dispatch (buildLinkedMessage env this evalContext)] ∧
      (buildLinkedMessage env this evalContext).Body =
        (writeForm env.randomBoundary
          [{ fieldname := str "chat_id", filename := none, content := this.ChatID },
           { fieldname := str "text", filename := none, content := linkedMessage evalContext },
           { fieldname := str "parse_mode", filename := none, content := str "html" }]).body ∧
      linkedMessage evalContext =
        (str "<b>" ++ evalContext.GetNotificationTitle ++ str "</b>\nState: "
            ++ evalContext.Rule.Name ++ str "\nMessage: " ++ evalContext.Rule.Message
            ++ str "\n")
          ++ (if evalContext.GetRuleUrl.2 = none then
                str "URL: " ++ evalContext.GetRuleUrl.1 ++ str "\n" else [])
          ++ (if linkedMetrics evalContext ≠ [] then
                str "\n<i>Metrics:</i>" ++ linkedMetrics evalContext else []) := by
  refine ⟨?_, rfl, linkedMessage_of_no_image evalContext himg⟩
  rw [Notify_eq, decide_eq_true ⟨himg, hup⟩, buildMessage_true, hfail]
  rfl

/-- C18 on the worked example, in a world where no file can be opened. -/
theorem Notify_fallback_text_witness :
    (Notify noFileEnv uploadNotifier cpuContext).2 =
        [Event.osOpen (str "/tmp/missing.png"),
          Event.dispatch (buildLinkedMessage noFileEnv uploadNotifier cpuContext)] ∧
      linkedMessage cpuContext =
        str ("<b>High CPU</b>\nState: cpu-rule\nMessage: CPU above 90%\n"
          ++ "\n<i>Metrics:</i>\ncpu: 95%\ncpu: 96%") :=
  have h := Notify_fallback_text noFileEnv uploadNotifier cpuContext
    { msg := "open: no such file or directory" } rfl rfl rfl
  ⟨h.1, h.2.2.trans (by decide)⟩

set_option maxRecDepth 100000 in
/-- C12 in a world where the image opens: the image request goes to the
`sendPhoto` endpoint of the token `123:abc`. -/
theorem request_url_method_header_witness :
    (buildMessage imageEnv uploadNotifier cpuContext true).1.Url =
        str "https://api.telegram.org/bot123:abc/sendPhoto" ∧
      (buildMessage imageEnv uploadNotifier cpuContext true).1.HttpHeader =
        [(str "Content-Type", str "multipart/form-data; boundary=b0")] :=
  have h := (request_url_method_header imageEnv uploadNotifier cpuContext).2
    (buildMessage imageEnv uploadNotifier cpuContext true).1 (by decide)
  ⟨h.1.trans (by decide), h.2.2.1.trans (by decide)⟩

/-- C15 as amended: when the boundary drawn for the request holds no carriage
return and the line `--` followed by the boundary occurs neither in the chat
identifier nor in the composed message, the body of the text request, read
back as `multipart/form-data` with the boundary that its `Content-Type`
header announces, gives the fields `chat_id` = `ChatID`, `text` = the composed
message and `parse_mode` = `html`. -/
theorem linked_request_round_trip (env : Env) (this : TelegramNotifier)
    (evalContext : EvalContext)
    (hcr : (13 : UInt8) ∉ env.randomBoundary)
    (hchat : ¬ (str "--" ++ env.randomBoundary) <:+: this.ChatID)
    (hmessage : ¬ (str "--" ++ env.randomBoundary) <:+: linkedMessage evalContext) :
    readRequestForm (buildLinkedMessage env this evalContext) =
      some [(str "chat_id", this.ChatID), (str "text", linkedMessage evalContext),
        (str "parse_mode", str "html")] := by
  rw [buildLinkedMessage_eq]
  unfold readRequestForm
  have hlookup : List.lookup (str "Content-Type")
      [(str "Content-Type", str "multipart/form-data; boundary=" ++ env.randomBoundary)] =
      some (str "multipart/form-data; boundary=" ++ env.randomBoundary) := by
    simp [List.lookup]
  simp only [hlookup, boundaryParam_formDataContentType,
    parseMultipart_linked_form env.randomBoundary this.ChatID (linkedMessage evalContext)
      hcr hchat hmessage,
    formFields_linked_form]

set_option maxRecDepth 1000000 in
/-- C15 as amended, on the worked example with the boundary `b0`. -/
theorem linked_request_round_trip_witness :
    readRequestForm (buildLinkedMessage noFileEnv uploadNotifier cpuContext) =
      some [(str "chat_id", str "-42"),
        (str "text", str ("<b>High CPU</b>\nState: cpu-rule\nMessage: CPU above 90%\n"
          ++ "\n<i>Metrics:</i>\ncpu: 95%\ncpu: 96%")),
        (str "parse_mode", str "html")] :=
  (linked_request_round_trip noFileEnv uploadNotifier cpuContext (by decide) (by decide)
    (by decide)).trans (by decide)

/-- C11 as amended: when the boundary drawn for the request holds no carriage
return and the line `--` followed by the boundary occurs in none of the
values written, the fields read back from the body are, for the text
request, exactly `chat_id` = `ChatID`, `text` = the composed message and
`parse_mode` = `html`, and, for an image request built from a file that was
read to its end and whose path holds no line break, exactly `chat_id` =
`ChatID`, `caption` = the generated caption and the file field `photo`, named
after the path, with the whole content of the file. Every request of
`buildMessage` then reads back as `chat_id, text, parse_mode` or as
`chat_id, caption, photo`. -/
theorem request_form_fields (env : Env) (this : TelegramNotifier)
    (evalContext : EvalContext)
    (hcr : (13 : UInt8) ∉ env.randomBoundary)
    (hchat : ¬ (str "--" ++ env.randomBoundary) <:+: this.ChatID) :
    (¬ (str "--" ++ env.randomBoundary) <:+: linkedMessage evalContext →
        readRequestParts (buildLinkedMessage env this evalContext) =
          some [{ fieldname := str "chat_id", filename := none, content := this.ChatID },
            { fieldname := str "text", filename := none, content := linkedMessage evalContext },
            { fieldname := str "parse_mode", filename := none, content := str "html" }]) ∧
      (∀ cmd imageFile, (buildInlineMessage env this evalContext).1 = .ok cmd →
        env.osOpen evalContext.ImageOnDiskPath = .ok imageFile →
        imageFile.readErr = none →
        (13 : UInt8) ∉ evalContext.ImageOnDiskPath → (10 : UInt8) ∉ evalContext.ImageOnDiskPath →
        ¬ (str "--" ++ env.randomBoundary) <:+:
          generateImageCaption evalContext evalContext.GetRuleUrl.1 (inlineMetrics evalContext) →
        ¬ (str "--" ++ env.randomBoundary) <:+: imageFile.content →
        readRequestParts cmd =
          some [{ fieldname := str "chat_id", filename := none, content := this.ChatID },
            { fieldname := str "caption", filename := none,
              content := generateImageCaption evalContext evalContext.GetRuleUrl.1
                (inlineMetrics evalContext) },
            { fieldname := str "photo", filename := some evalContext.ImageOnDiskPath,
              content := imageFile.content }]) ∧
      (∀ sendImageInline,
        ¬ (str "--" ++ env.randomBoundary) <:+: linkedMessage evalContext →
        (13 : UInt8) ∉ evalContext.ImageOnDiskPath →
        ¬ (str "--" ++ env.randomBoundary) <:+:
          generateImageCaption evalContext evalContext.GetRuleUrl.1 (inlineMetrics evalContext) →
        (∀ imageFile, env.osOpen evalContext.ImageOnDiskPath = .ok imageFile →
          ¬ (str "--" ++ env.randomBoundary) <:+: imageFile.content) →
        ∃ parts, readRequestParts (buildMessage env this evalContext sendImageInline).1 =
            some parts ∧
          (parts.map FormPart.fieldname = [str "chat_id", str "text", str "parse_mode"] ∨
            parts.map FormPart.fieldname = [str "chat_id", str "caption", str "photo"])) := by
  have hlinked : ¬ (str "--" ++ env.randomBoundary) <:+: linkedMessage evalContext →
      readRequestParts (buildLinkedMessage env this evalContext) =
        some [{ fieldname := str "chat_id", filename := none, content := this.ChatID },
          { fieldname := str "text", filename := none, content := linkedMessage evalContext },
          { fieldname := str "parse_mode", filename := none, content := str "html" }] := by
    intro hmessage
    rw [buildLinkedMessage_eq]
    unfold readRequestParts
    simp only [lookup_contentType, boundaryParam_formDataContentType,
      parseMultipart_linked_form env.randomBoundary this.ChatID (linkedMessage evalContext)
        hcr hchat hmessage,
      formParts_linked_form]
  have hinline : ∀ cmd imageFile, (buildInlineMessage env this evalContext).1 = .ok cmd →
      env.osOpen evalContext.ImageOnDiskPath = .ok imageFile →
      (13 : UInt8) ∉ evalContext.ImageOnDiskPath →
      ¬ (str "--" ++ env.randomBoundary) <:+:
        generateImageCaption evalContext evalContext.GetRuleUrl.1 (inlineMetrics evalContext) →
      ¬ (str "--" ++ env.randomBoundary) <:+: imageFile.content →
      readRequestParts cmd =
        some [{ fieldname := str "chat_id", filename := none, content := this.ChatID },
          { fieldname := str "caption", filename := none,
            content := generateImageCaption evalContext evalContext.GetRuleUrl.1
              (inlineMetrics evalContext) },
          { fieldname := str "photo", filename := some evalContext.ImageOnDiskPath,
            content := imageFile.content }] := by
    intro cmd imageFile hcmd hopen hpath hcaption himage
    obtain ⟨imageFile', hopen', heq⟩ := buildInlineMessage_ok env this evalContext cmd hcmd
    rw [hopen] at hopen'
    injection hopen' with hfile
    subst hfile
    rw [heq]
    unfold readRequestParts
    simp only [lookup_contentType, boundaryParam_formDataContentType,
      parseMultipart_inline_form env.randomBoundary this.ChatID _ evalContext.ImageOnDiskPath
        imageFile.content hcr hpath hchat hcaption himage,
      formParts_inline_form]
  refine ⟨hlinked, fun cmd imageFile hcmd hopen _ hpath _ hcaption himage =>
    hinline cmd imageFile hcmd hopen hpath hcaption himage, ?_⟩
  intro sendImageInline hmessage hpath hcaption himage
  cases sendImageInline with
  | false => exact ⟨_, hlinked hmessage, Or.inl rfl⟩
  | true =>
    rw [buildMessage_true]
    cases hres : (buildInlineMessage env this evalContext).1 with
    | error err => exact ⟨_, hlinked hmessage, Or.inl rfl⟩
    | ok cmd =>
      obtain ⟨imageFile, hopen, _⟩ := buildInlineMessage_ok env this evalContext cmd hres
      exact ⟨_, hinline cmd imageFile hres hopen hpath hcaption (himage imageFile hopen),
        Or.inr rfl⟩

set_option maxRecDepth 1000000 in
/-- C11 as amended, on the worked example with the boundary `b0`: the text
request reads back as `chat_id`, `text`, `parse_mode`, and, where the image
opens on four bytes that read to the end, the image request reads back as
`chat_id`, `caption` and the file field `photo` with these four bytes. -/
theorem request_form_fields_witness :
    readRequestParts (buildLinkedMessage imageEnv uploadNotifier cpuContext) =
        some [{ fieldname := str "chat_id", filename := none, content := str "-42" },
          { fieldname := str "text", filename := none, content := linkedMessage cpuContext },
          { fieldname := str "parse_mode", filename := none, content := str "html" }] ∧
      readRequestParts (buildMessage imageEnv uploadNotifier cpuContext true).1 =
        some [{ fieldname := str "chat_id", filename := none, content := str "-42" },
          { fieldname := str "caption", filename := none,
            content := str "High CPU\nMessage: CPU above 90%\n\nMetrics:\ncpu: 95%\ncpu: 96%" },
          { fieldname := str "photo", filename := some (str "/tmp/missing.png"),
            content := [137, 80, 78, 71] }] :=
  have h := request_form_fields imageEnv uploadNotifier cpuContext (by decide) (by decide)
  ⟨h.1 (by decide),
    (h.2.1 (buildMessage imageEnv uploadNotifier cpuContext true).1
      { content := [137, 80, 78, 71], readErr := none } (by decide) rfl rfl (by decide)
      (by decide) (by decide) (by decide)).trans (by decide)⟩

set_option maxRecDepth 1000000 in
/-- C11 fails on a chat identifier that holds a line of the boundary drawn
and the header of a field `caption`: the text request reads back with the
fields `chat_id`, `caption`, `text` and `parse_mode`, so with a caption and a
text at once, and its `chat_id` is not the chat identifier. -/
theorem text_request_reads_back_caption :
    hexBoundaryEnv.randomBoundary =
        str "0123456789abcdef0123456789abcdef0123456789abcdef0123456789ab" ∧
      (readRequestParts (buildLinkedMessage hexBoundaryEnv captionLineNotifier cpuContext)).map
          (fun parts => parts.map FormPart.fieldname) =
        some [str "chat_id", str "caption", str "text", str "parse_mode"] ∧
      (readRequestParts (buildLinkedMessage hexBoundaryEnv captionLineNotifier cpuContext)).map
          (fun parts => parts.map FormPart.content) =
        some [str "x", str "y", linkedMessage cpuContext, str "html"] := by
  decide

set_option maxRecDepth 1000000 in
/-- C15 fails on a chat identifier that holds the closing line of the
boundary drawn: the body of the text request reads back as the single field
`chat_id` = `x`, without the field `text`. -/
theorem linked_request_round_trip_collision :
    hexBoundaryEnv.randomBoundary =
        str "0123456789abcdef0123456789abcdef0123456789abcdef0123456789ab" ∧
      closingLineNotifier.ChatID =
        str "x\r\n--0123456789abcdef0123456789abcdef0123456789abcdef0123456789ab--\r\n" ∧
      readRequestForm (buildLinkedMessage hexBoundaryEnv closingLineNotifier cpuContext) =
        some [(str "chat_id", str "x")] := by
  decide

end Telegram
